/-
Verification of the MatchWise football-data ingestion pipeline.

This file gives a shallow embedding, in Lean 4, of the ingestion and
identity-resolution core of the repository:

  backend/scripts/parsers/fixture_parser.py   (normalize_date,
    parse_fixture_txt, parse_fixture_csv, validate_fixture,
    bulk_upsert_fixtures)
  backend/scripts/parsers/club_parser.py      (parse_club_txt, parse_club_json)
  backend/scripts/parsers/player_parser.py    (parse_squad_txt)
  backend/scripts/enhanced_ingestion.py       (normalize_date, sync_repo,
    extract_season_year, get_or_create_season, infer_country_from_path)
  backend/scripts/sync_fixtures.py            (normalize_openfootball_date,
    parse_openfootball_fixture_txt, parse_openfootball_csv, validate_fixture,
    bulk_upsert_clubs, bulk_upsert_fixtures, bulk_upsert_players, sync_repo)
  backend/scripts/clear_incorrect_fixtures.py (clear_incorrect_fixtures)

Python strings are modelled as Lean String / List Char; Python ints as Nat/Int;
Python None via Option; exceptions via Option/Except.  Python dicts are
modelled as association lists with first-match lookup and replace-or-append
assignment (insertion order preserved, one binding per key, as in CPython).
The SQLAlchemy session is modelled as an explicit record store; the Date
column of Fixture.match_date (app/models/models.py) is modelled by the
PyDate type below, which distinguishes a Python str from a datetime.date:
values read back from a Date column are datetime.date objects, and
str == date comparisons in Python are always False.
-/
import Mathlib

namespace MW

/-! ## Python-level basics -/

/-- Python dict lookup: first (unique) binding for the key. -/
def pyGet [DecidableEq α] : List (α × β) → α → Option β
  | [], _ => none
  | (k, v) :: rest, q => if k = q then some v else pyGet rest q

/-- Python dict assignment: replace the existing binding or append a new one
(CPython dicts preserve insertion order). -/
def pySet [DecidableEq α] : List (α × β) → α → β → List (α × β)
  | [], q, v => [(q, v)]
  | (k, w) :: rest, q, v =>
    if k = q then (q, v) :: rest else (k, w) :: pySet rest q v

/-- Python dict.get(k, d) with a default. -/
def pyGetD [DecidableEq α] (d : List (α × β)) (q : α) (dflt : β) : β :=
  (pyGet d q).getD dflt

/-- Truthiness of an optional integer id (None and 0 are falsy in Python). -/
def truthyId : Option Nat → Bool
  | none => false
  | some n => n != 0

/-- Truthiness of an optional string (None and "" are falsy in Python). -/
def truthyStr : Option String → Bool
  | none => false
  | some s => s != ""

/-- Whitespace for Python str.strip() / str.split() / regex \s. -/
def isPyWs (c : Char) : Bool :=
  c = ' ' || c = '\t' || c = '\n' || c = '\r' || c = '\x0b' || c = '\x0c'

/-- Python str.strip() on a character list. -/
def pyStripL (cs : List Char) : List Char :=
  ((cs.dropWhile isPyWs).reverse.dropWhile isPyWs).reverse

/-- Python str.strip() on a String. -/
def pyStrip (s : String) : String :=
  String.mk (pyStripL s.data)

/-- Python str.split(sep) with a one-character separator, on char lists.
split always returns at least one (possibly empty) piece. -/
def splitOnChar (sep : Char) : List Char → List (List Char)
  | [] => [[]]
  | c :: cs =>
    let r := splitOnChar sep cs
    if c = sep then [] :: r
    else
      match r with
      | h :: t => (c :: h) :: t
      | [] => [[c]]

/-- Python str.split() with no argument: split on whitespace runs,
dropping empty pieces. -/
def pySplitWsL : List Char → List (List Char)
  | [] => []
  | [c] => if isPyWs c then [] else [[c]]
  | c :: c2 :: t =>
    if isPyWs c then pySplitWsL (c2 :: t)
    else if isPyWs c2 then [c] :: pySplitWsL (c2 :: t)
    else
      match pySplitWsL (c2 :: t) with
      | h :: rest => (c :: h) :: rest
      | [] => [[c]]

/-- All characters are ASCII decimal digits and the list is nonempty
(Python str.isdigit restricted to ASCII input). -/
def allDigits (cs : List Char) : Bool :=
  cs ≠ [] && cs.all Char.isDigit

/-- Numeric value of an ASCII digit list. -/
def digitsVal (cs : List Char) : Nat :=
  cs.foldl (fun a c => a * 10 + (c.toNat - '0'.toNat)) 0

/-- Python int(s): optional surrounding whitespace, optional sign, then
ASCII digits.  Any other input raises ValueError, modelled as none. -/
def pyInt (cs : List Char) : Option Int :=
  let t := pyStripL cs
  match t with
  | '-' :: ds => if allDigits ds then some (-(digitsVal ds : Int)) else none
  | '+' :: ds => if allDigits ds then some ((digitsVal ds : Int)) else none
  | ds => if allDigits ds then some ((digitsVal ds : Int)) else none

/-- Python int(s) on a String. -/
def pyIntS (s : String) : Option Int := pyInt s.data

/-- Decimal digits of a natural number (no padding). -/
def natDigits (n : Nat) : List Char :=
  (Nat.toDigits 10 n)

/-- Python format spec 0Nd for an Int: pad with zeros to a minimum width,
counting the sign character. -/
def pyFmt0 (width : Nat) (v : Int) : String :=
  if v < 0 then
    let ds := natDigits v.natAbs
    let pad := (width - 1) - ds.length
    String.mk ('-' :: List.replicate pad '0' ++ ds)
  else
    let ds := natDigits v.natAbs
    let pad := width - ds.length
    String.mk (List.replicate pad '0' ++ ds)

/-- Python "a" in "b": substring containment. -/
def containsSub (hay needle : String) : Bool :=
  let n := needle.data
  let rec go : List Char → Bool
    | [] => n.isPrefixOf []
    | c :: cs => n.isPrefixOf (c :: cs) || go cs
  go hay.data

/-- Python str.lower() (ASCII). -/
def pyLower (s : String) : String := String.mk (s.data.map Char.toLower)

/-- Python str.startswith (kernel-reducible, unlike String.startsWith). -/
def pyStartsWith (s pre : String) : Bool := pre.data.isPrefixOf s.data

/-- Python str.endswith. -/
def pyEndsWith (s suf : String) : Bool := suf.data.isSuffixOf s.data

/-- Python s.replace(pat, "") for a nonempty pattern: remove all
non-overlapping occurrences, left to right (fuelled by the length). -/
def pyRemoveAllGo (pat : List Char) : Nat → List Char → List Char
  | _, [] => []
  | 0, l => l
  | Nat.succ n, c :: rest =>
    if pat.isPrefixOf (c :: rest) then
      pyRemoveAllGo pat n ((c :: rest).drop pat.length)
    else c :: pyRemoveAllGo pat n rest

def pyRemoveAll (pat cs : List Char) : List Char :=
  if pat = [] then cs else pyRemoveAllGo pat cs.length cs

/-! ## Calendar dates (datetime.date) -/

/-- A Python datetime.date value. -/
structure Day where
  y : Nat
  m : Nat
  d : Nat
deriving DecidableEq, Repr

/-- datetime.date ordering is lexicographic on (year, month, day). -/
def Day.ble (a b : Day) : Bool :=
  a.y < b.y || (a.y = b.y && (a.m < b.m || (a.m = b.m && a.d ≤ b.d)))

/-- Gregorian leap year, as in Python's datetime. -/
def isLeap (y : Nat) : Bool :=
  y % 4 = 0 && (y % 100 ≠ 0 || y % 400 = 0)

/-- Days in a month of a given year, as in Python's datetime. -/
def daysInMonth (y m : Nat) : Nat :=
  if m = 2 then (if isLeap y then 29 else 28)
  else if m = 4 || m = 6 || m = 9 || m = 11 then 30
  else 31

/-- A (y, m, d) triple acceptable to datetime.date (year 1..9999). -/
def validYMD (y m d : Nat) : Bool :=
  1 ≤ y && y ≤ 9999 && 1 ≤ m && m ≤ 12 && 1 ≤ d && d ≤ daysInMonth y m

/-- datetime.strptime(s, "%Y-%m-%d"): the %Y field is exactly four digits,
%m and %d are one or two digits in range (regex 1[0-2]|0[1-9]|[1-9] and
3[01]|[12]\d|0[1-9]|[1-9]), the whole string must be consumed, and the
resulting triple must be a valid calendar date. -/
def strptimeYmd (cs : List Char) : Option Day :=
  match splitOnChar '-' cs with
  | [ys, ms, ds] =>
    if allDigits ys && ys.length = 4 &&
       allDigits ms && ms.length ≤ 2 &&
       allDigits ds && ds.length ≤ 2 then
      let y := digitsVal ys
      let m := digitsVal ms
      let d := digitsVal ds
      if 1 ≤ m && m ≤ 12 && 1 ≤ d && d ≤ 31 && validYMD y m d then
        some ⟨y, m, d⟩
      else none
    else none
  | _ => none

/-- datetime.strptime on a String with format "%Y-%m-%d". -/
def strptimeYmdS (s : String) : Option Day := strptimeYmd s.data

/-- English month abbreviations recognised by strptime %b (C locale),
matched case-insensitively. -/
def monthAbbrevs : List String :=
  ["jan", "feb", "mar", "apr", "may", "jun",
   "jul", "aug", "sep", "oct", "nov", "dec"]

/-- strptime("%b") month lookup: the whole token must be a month
abbreviation, compared case-insensitively; result is 1..12. -/
def monthNum (s : String) : Option Nat :=
  let t := pyLower s
  match monthAbbrevs.indexOf? t with
  | some i => some (i + 1)
  | none => none

/-- English weekday abbreviations recognised by strptime %a (C locale). -/
def weekdayAbbrevs : List String :=
  ["mon", "tue", "wed", "thu", "fri", "sat", "sun"]

def isWeekdayAbbrev (s : String) : Bool :=
  weekdayAbbrevs.contains (pyLower s)

/-- ISO date string formatting used by all normalizers:
f-string 04d-02d-02d. -/
def fmtYmd (y : Int) (m : Nat) (d : Int) : String :=
  pyFmt0 4 y ++ "-" ++ pyFmt0 2 (m : Int) ++ "-" ++ pyFmt0 2 d

/-! ## Date normalizer of scripts/parsers/fixture_parser.py -/

namespace FixtureParsers

/-- "month, day = tok.split('/')" followed by strptime(month, "%b") and
int(day); any failure raises and is caught by the outer handler. -/
def monthDayOfTok (md : List Char) : Option (Nat × Int) :=
  match splitOnChar '/' md with
  | [mS, dS] => do
    let mn ← monthNum (String.mk mS)
    let dv ← pyInt dS
    pure (mn, dv)
  | _ => none

/-- Season-relative year choice shared by the month/day branch:
if season_year is truthy, int(season_year) picks the base year and months
from July on stay in it while earlier months roll to the next year;
otherwise datetime.now().year is used. -/
def seasonRelative (md : List Char) (season_year : Option String)
    (currentYear : Nat) : Option String :=
  match monthDayOfTok md with
  | none => none
  | some (mn, dv) =>
    if truthyStr season_year then
      match pyIntS (season_year.getD "") with
      | none => none
      | some yr =>
        some (fmtYmd (if 7 ≤ mn then yr else yr + 1) mn dv)
    else
      some (fmtYmd (currentYear : Int) mn dv)

/-- normalize_date of scripts/parsers/fixture_parser.py.  Handles
"Fri Aug/11" and "Aug/11" season-relatively, passes through strings
accepted by strptime("%Y-%m-%d") unchanged, and returns None otherwise;
all exceptions are caught and become None. -/
def normalize_date (date_str : String) (season_year : Option String)
    (currentYear : Nat) : Option String :=
  if date_str = "" then none
  else
    let parts := pySplitWsL date_str.data
    match parts with
    | [_, p2] =>
      if p2.contains '/' then seasonRelative p2 season_year currentYear
      else if (strptimeYmdS date_str).isSome then some date_str else none
    | [p1] =>
      if p1.contains '/' then seasonRelative p1 season_year currentYear
      else if (strptimeYmdS date_str).isSome then some date_str else none
    | _ =>
      if (strptimeYmdS date_str).isSome then some date_str else none

end FixtureParsers

/-! ## Date normalizer of scripts/enhanced_ingestion.py -/

namespace Enhanced

/-- Month abbreviation at the head of the input (three characters,
case-insensitive), returning the month number and the rest. -/
def monAbbrevAt (cs : List Char) : Option (Nat × List Char) :=
  match cs with
  | a :: b :: c :: rest =>
    match monthAbbrevs.indexOf? (String.mk [a.toLower, b.toLower, c.toLower]) with
    | some i => some (i + 1, rest)
    | none => none
  | _ => none

/-- Weekday abbreviation at the head of the input. -/
def wdAbbrevAt (cs : List Char) : Option (List Char) :=
  match cs with
  | a :: b :: c :: rest =>
    if weekdayAbbrevs.contains (String.mk [a.toLower, b.toLower, c.toLower])
    then some rest else none
  | _ => none

/-- strptime %d at the very end of the format: one or two digits with
value 1..31 (regex 3[01]|[12]\d|0[1-9]|[1-9]), nothing after them. -/
def dayTokEnd (cs : List Char) : Option Nat :=
  if allDigits cs && cs.length ≤ 2 then
    let v := digitsVal cs
    if 1 ≤ v && v ≤ 31 then some v else none
  else none

/-- strptime(date_str, "%a %b/%d") then strptime(date_str, "%b/%d"),
as tried in order by the format loop.  The literal space matches a
whitespace run; the parsed day must be valid in year 1900 (strptime
builds a datetime.date with the default year 1900). -/
def monSlashDay (cs : List Char) : Option (Nat × Nat) :=
  let viaFmt2 : List Char → Option (Nat × Nat) := fun t =>
    match monAbbrevAt t with
    | some (mn, rest) =>
      match rest with
      | '/' :: dTok =>
        match dayTokEnd dTok with
        | some d => if d ≤ daysInMonth 1900 mn then some (mn, d) else none
        | none => none
      | _ => none
    | none => none
  let viaFmt1 : Option (Nat × Nat) :=
    match wdAbbrevAt cs with
    | some rest =>
      match rest with
      | c :: _ =>
        if isPyWs c then viaFmt2 (rest.dropWhile isPyWs) else none
      | [] => none
    | none => none
  viaFmt1 <|> viaFmt2 cs

/-- One or two digits followed by the given separator (regex \d{1,2} then
a literal, greedy), returning the rest after the separator. -/
def d12Then (sep : Char) : List Char → Option (List Char)
  | a :: b :: x :: r =>
    if a.isDigit && b.isDigit && x = sep then some r
    else if a.isDigit && b = sep then some (x :: r) else none
  | [a, b] => if a.isDigit && b = sep then some [] else none
  | _ => none

/-- re.match(r"\d{4}-\d{1,2}-\d{1,2}", s): anchored at the start only. -/
def isoRegexOk (cs : List Char) : Bool :=
  match cs with
  | a :: b :: c :: d :: e :: rest =>
    a.isDigit && b.isDigit && c.isDigit && d.isDigit && e = '-' &&
    (match d12Then '-' rest with
     | some r2 =>
       (match r2 with
        | x :: _ => x.isDigit
        | [] => false)
     | none => false)
  | _ => false

/-- re.match(r"\d{1,2}\.\d{1,2}\.\d{4}", s): anchored at the start only. -/
def ddmmRegexOk (cs : List Char) : Bool :=
  match d12Then '.' cs with
  | some r1 =>
    match d12Then '.' r1 with
    | some r2 => decide (4 ≤ r2.length) && (r2.take 4).all Char.isDigit
    | none => false
  | none => false

/-- The ISO branch: after the regex gate, year, month, day =
map(int, date_str.split('-')) and re-formatting; unpack or int failures
raise and are caught by the outer handler. -/
def isoBranch (cs : List Char) : Option String :=
  match splitOnChar '-' cs with
  | [yS, mS, dS] => do
    let y ← pyInt yS
    let m ← pyInt mS
    let d ← pyInt dS
    pure (pyFmt0 4 y ++ "-" ++ pyFmt0 2 m ++ "-" ++ pyFmt0 2 d)
  | _ => none

/-- The DD.MM.YYYY branch: day, month, year = map(int, date_str.split('.')). -/
def ddmmBranch (cs : List Char) : Option String :=
  match splitOnChar '.' cs with
  | [dS, mS, yS] => do
    let d ← pyInt dS
    let m ← pyInt mS
    let y ← pyInt yS
    pure (pyFmt0 4 y ++ "-" ++ pyFmt0 2 m ++ "-" ++ pyFmt0 2 d)
  | _ => none

/-- normalize_date of scripts/enhanced_ingestion.py.  Tries the formats
"%a %b/%d" and "%b/%d" with the season-relative year rule, then an
ISO-prefix regex branch, then a DD.MM.YYYY-prefix regex branch; returns
None otherwise, catching every exception.  A non-numeric season_year makes
the month/day formats fall through (int raises ValueError inside the
format loop, which continues). -/
def normalize_date (date_str : String) (season_year : Option String)
    (currentYear : Nat) : Option String :=
  if date_str = "" then none
  else
    let cs := date_str.data
    let viaSeason : Option String :=
      match monSlashDay cs with
      | some (mn, d) =>
        if truthyStr season_year then
          match pyIntS (season_year.getD "") with
          | some yr =>
            some (fmtYmd (if 7 ≤ mn then yr else yr + 1) mn (d : Int))
          | none => none
        else some (fmtYmd (currentYear : Int) mn (d : Int))
      | none => none
    match viaSeason with
    | some r => some r
    | none =>
      if isoRegexOk cs then isoBranch cs
      else if ddmmRegexOk cs then ddmmBranch cs
      else none

end Enhanced

/-! ## Date normalizer of scripts/sync_fixtures.py -/

namespace SyncFx

/-- normalize_openfootball_date of scripts/sync_fixtures.py: strips an
optional weekday word, parses "Mon/DD" season-relatively, with no ISO or
DD.MM.YYYY fallback; every exception becomes None. -/
def normalize_openfootball_date (date_str : String)
    (season_year : Option String) : Option String :=
  if date_str = "" then none
  else
    let parts := pySplitWsL date_str.data
    let md? : Option (List Char) :=
      match parts with
      | [] => none
      | [p1] => some p1
      | [_, p2] => some p2
      | p1 :: _ :: _ :: _ => some p1
    match md? with
    | none => none
    | some md =>
      match splitOnChar '/' md with
      | [mS, dS] => do
        let mn ← monthNum (String.mk mS)
        let yr ←
          match season_year with
          | some ys => pyIntS ys
          | none => none
        let dv ← pyInt dS
        pure (fmtYmd (if 7 ≤ mn then yr else yr + 1) mn dv)
      | _ => none

end SyncFx

/-! ## Fixture records and the validation gate -/

/-- A fixture record dictionary as produced by the fixture parsers.
Missing string fields are represented by none, a missing-or-empty team
name is falsy exactly like in Python. -/
structure FixtureRec where
  season : Option String := none
  match_date : Option String
  home_team : String
  away_team : String
  stage : Option String
  venue : Option String
  is_completed : Bool
  home_score : Option Int
  away_score : Option Int
deriving DecidableEq, Repr

namespace FixtureParsers

/-- validate_fixture of scripts/parsers/fixture_parser.py: reject a record
with a falsy team name; reject a truthy match_date that strptime("%Y-%m-%d")
cannot parse (a missing date is accepted); for a completed record reject a
missing score or a score outside 0..20 per side. -/
def validate_fixture (f : FixtureRec) : Bool :=
  if f.home_team = "" || f.away_team = "" then false
  else if truthyStr f.match_date &&
          (strptimeYmdS (f.match_date.getD "")).isNone then false
  else if f.is_completed then
    match f.home_score, f.away_score with
    | some hs, some as_ => 0 ≤ hs && hs ≤ 20 && 0 ≤ as_ && as_ ≤ 20
    | _, _ => false
  else true

end FixtureParsers

namespace SyncFx

/-- validate_fixture of scripts/sync_fixtures.py: like the parsers version
but strptime runs on match_date unconditionally, so a missing (None) date
also raises and is rejected. -/
def validate_fixture (f : FixtureRec) : Bool :=
  if f.home_team = "" || f.away_team = "" then false
  else if (match f.match_date with
           | some d => (strptimeYmdS d).isNone
           | none => true) then false
  else if f.is_completed then
    match f.home_score, f.away_score with
    | some hs, some as_ => 0 ≤ hs && hs ≤ 20 && 0 ≤ as_ && as_ ≤ 20
    | _, _ => false
  else true

end SyncFx

/-! ## The OpenFootball match-line regexes

The two regexes of the fixture text parsers,

  (\d{1,2}\.\d{2})?\s*([\w &'\-\.]+?)\s+(\d+)-(\d+)(?: \([^)]+\))?\s+([\w &'\-\.]+)
  ([\w &'\-\.]+)\s+(?:v|vs|[-])\s+([\w &'\-\.]+)

are modelled by specialised backtracking matchers below, following Python
re.match semantics: anchored at the start, prefix match, greedy quantifiers
try longest first, lazy ones shortest first, the most recent choice point
backtracks first, and alternatives are tried left to right. -/

/-- The character class [\w &'\-\.]; \w is ASCII alphanumerics plus
underscore, with non-ASCII characters treated as word characters
(approximating Python's Unicode \w for the data at hand). -/
def fxClassChar (c : Char) : Bool :=
  c.isAlphanum || c = '_' || 128 ≤ c.toNat ||
  c = ' ' || c = '&' || c = '\'' || c = '-' || c = '.'

/-- Trailing piece \s+([class]+) with the \s+ giving back whitespace to the
capture group when the greedy attempt leaves it empty; returns the captured
group.  Whitespace runs of length w are tried from longest to 1. -/
def finalWsAway (cs : List Char) : Option (List Char) :=
  let n := (cs.takeWhile isPyWs).length
  (List.range n).findSome? fun i =>
    let w := n - i
    let aw := (cs.drop w).takeWhile fxClassChar
    if aw ≠ [] then some aw else none

/-- The optional half-time group (?: \([^)]+\))? followed by the final
\s+([class]+): the group is tried greedily and abandoned if the rest of
the pattern fails. -/
def afterScores (cs : List Char) : Option (List Char) :=
  let withHt : Option (List Char) :=
    match cs with
    | ' ' :: '(' :: rest =>
      let inner := rest.takeWhile (fun c => c ≠ ')')
      if inner ≠ [] then
        match rest.drop inner.length with
        | ')' :: r3 => finalWsAway r3
        | _ => none
      else none
    | _ => none
  withHt <|> finalWsAway cs

/-- \s+(\d+)-(\d+) then the half-time option and away group.  The greedy
\s+ and \d+ here are deterministic because the following atom is disjoint
from the repeated class. -/
def matchTailAfterHome (cs : List Char) : Option (Nat × Nat × List Char) :=
  let wsN := (cs.takeWhile isPyWs).length
  if wsN = 0 then none
  else
    let r1 := cs.drop wsN
    let d1 := r1.takeWhile Char.isDigit
    if d1 = [] then none
    else
      match r1.drop d1.length with
      | '-' :: r3 =>
        let d2 := r3.takeWhile Char.isDigit
        if d2 = [] then none
        else
          match afterScores (r3.drop d2.length) with
          | some away => some (digitsVal d1, digitsVal d2, away)
          | none => none
      | _ => none

/-- Candidates for the optional time group (\d{1,2}\.\d{2})?, in
backtracking order: two-digit hour, one-digit hour, group skipped. -/
def timeVariants (cs : List Char) : List (Option (List Char) × List Char) :=
  (match cs with
   | a :: b :: '.' :: c :: d :: rest =>
     if a.isDigit && b.isDigit && c.isDigit && d.isDigit
     then [(some [a, b, '.', c, d], rest)] else []
   | _ => []) ++
  (match cs with
   | a :: '.' :: c :: d :: rest =>
     if a.isDigit && c.isDigit && d.isDigit
     then [(some [a, '.', c, d], rest)] else []
   | _ => []) ++
  [(none, cs)]

/-- re.match of the scored-line regex: groups
(time?, home, home_score, away_score, away). -/
def mainLineMatch (cs : List Char) :
    Option (Option String × String × Nat × Nat × String) :=
  (timeVariants cs).findSome? fun tv =>
    let t := tv.1
    let afterT := tv.2
    let wsN := (afterT.takeWhile isPyWs).length
    (List.range (wsN + 1)).findSome? fun i =>
      let pos := afterT.drop (wsN - i)
      let maxHome := (pos.takeWhile fxClassChar).length
      (List.range maxHome).findSome? fun j =>
        let h := j + 1
        match matchTailAfterHome (pos.drop h) with
        | some r =>
          some (t.map String.mk, String.mk (pos.take h), r.1, r.2.1,
                String.mk r.2.2)
        | none => none

/-- The alternation (?:v|vs|[-]), in order. -/
def sepCandidates : List (List Char) := [['v'], ['v', 's'], ['-']]

/-- re.match of the unscored-line regex: groups (home, away). -/
def altLineMatch (cs : List Char) : Option (String × String) :=
  let maxG1 := (cs.takeWhile fxClassChar).length
  (List.range maxG1).findSome? fun i =>
    let L := maxG1 - i
    let rest := cs.drop L
    let wsN := (rest.takeWhile isPyWs).length
    (List.range wsN).findSome? fun k =>
      let r2 := rest.drop (wsN - k)
      sepCandidates.findSome? fun sep =>
        if sep.isPrefixOf r2 then
          match finalWsAway (r2.drop sep.length) with
          | some g2 => some (String.mk (cs.take L), String.mk g2)
          | none => none
        else none

/-- re.match(r"\[(.+)\]", line): the stripped line starts with '[' and has
a later ']'; the greedy group captures up to the last ']'. -/
def dateHeaderMatch (cs : List Char) : Option String :=
  match cs with
  | '[' :: rest =>
    match rest.reverse.indexOf? ']' with
    | some k =>
      let contentLen := rest.length - 1 - k
      if 1 ≤ contentLen then some (String.mk (rest.take contentLen)) else none
    | none => none
  | _ => none

/-- team_mapper.get(name, name). -/
def mapGetD (m : List (String × String)) (k : String) : String :=
  pyGetD m k k

/-! ## parse_fixture_txt of scripts/parsers/fixture_parser.py -/

namespace FixtureParsers

/-- Line-scan state of parse_fixture_txt. -/
structure TxtState where
  fixtures : List FixtureRec
  current_date : Option String
  current_round : Option String
deriving Repr

/-- The per-record date of a match line:
normalize_date(current_date, season_year) if current_date else None. -/
def currentNormalized (cd : Option String) (season_year : Option String)
    (currentYear : Nat) : Option String :=
  match cd with
  | some c => normalize_date c season_year currentYear
  | none => none

/-- Completion inference shared by both fixture text parsers: default True,
overwritten by match_date <= today when the normalized date string parses
back with strptime("%Y-%m-%d"); a parse failure leaves the default. -/
def inferCompleted (md : Option String) (today : Day) : Bool :=
  match md with
  | some m =>
    match strptimeYmdS m with
    | some dd => Day.ble dd today
    | none => true
  | none => true

/-- One line of parse_fixture_txt: skip blanks/comments, update the round
on matchday/round lines, update the current date on bracketed headers, emit
a completed-with-score record on scored match lines, emit an unscored
not-completed record on "A v B" lines, and ignore everything else. -/
def txtLineStep (tm : List (String × String)) (season_year : Option String)
    (currentYear : Nat) (today : Day) (st : TxtState) (rawLine : String) :
    TxtState :=
  let line := pyStrip rawLine
  if line = "" || pyStartsWith line "=" || pyStartsWith line "#" then st
  else if pyStartsWith (pyLower line) "matchday" ||
          pyStartsWith (pyLower line) "round" then
    { st with current_round := some line }
  else
    match dateHeaderMatch line.data with
    | some d => { st with current_date := some d }
    | none =>
      match mainLineMatch line.data with
      | some (_, home, hs, as_, away) =>
        let home1 := mapGetD tm (pyStrip home)
        let away1 := mapGetD tm (pyStrip away)
        let md := currentNormalized st.current_date season_year currentYear
        { st with fixtures := st.fixtures ++
            [{ match_date := md, home_team := home1, away_team := away1,
               stage := st.current_round, venue := none,
               is_completed := inferCompleted md today,
               home_score := some (hs : Int), away_score := some (as_ : Int) }] }
      | none =>
        match altLineMatch line.data with
        | some (home, away) =>
          let home1 := mapGetD tm (pyStrip home)
          let away1 := mapGetD tm (pyStrip away)
          let md := currentNormalized st.current_date season_year currentYear
          { st with fixtures := st.fixtures ++
              [{ match_date := md, home_team := home1, away_team := away1,
                 stage := st.current_round, venue := none,
                 is_completed := false,
                 home_score := none, away_score := none }] }
        | none => st

/-- parse_fixture_txt of scripts/parsers/fixture_parser.py over the decoded
lines of the file; currentYear and today stand for datetime.now().year and
datetime.today().date(). -/
def parse_fixture_txt (lines : List String) (tm : List (String × String))
    (season_year : Option String) (currentYear : Nat) (today : Day) :
    List FixtureRec :=
  (lines.foldl (txtLineStep tm season_year currentYear today)
    ⟨[], none, none⟩).fixtures

/-- A CSV row as produced by csv.DictReader; the two team columns are
assumed present (absent columns would raise KeyError only in the
sync_fixtures variant). -/
structure CsvRow where
  season : Option String := none
  date : Option String := none
  home_team : String := ""
  away_team : String := ""
  score : Option String := none
  stage : Option String := none
  venue : Option String := none
deriving DecidableEq, Repr

/-- Score split of parse_fixture_csv: home_score is assigned before the
away part is read, so "5-" leaves home_score set and away_score None; any
int/index failure is swallowed. -/
def csvScores (score : Option String) : Option Int × Option Int :=
  match score with
  | none => (none, none)
  | some s =>
    if s = "" then (none, none)
    else
      match splitOnChar '-' s.data with
      | [] => (none, none)
      | p0 :: rest =>
        match pyInt (pyStripL p0) with
        | none => (none, none)
        | some h =>
          match rest.head? with
          | none => (some h, none)
          | some p1 =>
            match pyInt (pyStripL p1) with
            | none => (some h, none)
            | some a => (some h, some a)

/-- parse_fixture_csv of scripts/parsers/fixture_parser.py over decoded
rows: one record per row, completed iff both scores parsed. -/
def parse_fixture_csv (rows : List CsvRow) (tm : List (String × String)) :
    List FixtureRec :=
  rows.map fun row =>
    let scores := csvScores row.score
    { season := row.season, match_date := row.date,
      home_team := mapGetD tm row.home_team,
      away_team := mapGetD tm row.away_team,
      stage := row.stage, venue := row.venue,
      is_completed := scores.1.isSome && scores.2.isSome,
      home_score := scores.1, away_score := scores.2 }

end FixtureParsers

/-! ## parse_openfootball_fixture_txt / parse_openfootball_csv of
scripts/sync_fixtures.py -/

namespace SyncFx

structure TxtState where
  fixtures : List FixtureRec
  current_date : Option String
deriving Repr

/-- One line of parse_openfootball_fixture_txt: like the parsers version
but the skip test uses a case-sensitive startswith("Matchday"), no round
state is kept, dates require both a current date and a season year, and
there is no unscored-line grammar. -/
def txtLineStep (tm : List (String × String)) (season_year : Option String)
    (today : Day) (st : TxtState) (rawLine : String) : TxtState :=
  let line := pyStrip rawLine
  if line = "" || pyStartsWith line "=" || pyStartsWith line "#" ||
     pyStartsWith line "Matchday" then st
  else
    match dateHeaderMatch line.data with
    | some d => { st with current_date := some d }
    | none =>
      match mainLineMatch line.data with
      | some (_, home, hs, as_, away) =>
        let home1 := mapGetD tm (pyStrip home)
        let away1 := mapGetD tm (pyStrip away)
        let md :=
          match st.current_date with
          | some cd =>
            if truthyStr season_year then
              normalize_openfootball_date cd season_year
            else none
          | none => none
        { st with fixtures := st.fixtures ++
            [{ match_date := md, home_team := home1, away_team := away1,
               stage := none, venue := none,
               is_completed := FixtureParsers.inferCompleted md today,
               home_score := some (hs : Int), away_score := some (as_ : Int) }] }
      | none => st

/-- parse_openfootball_fixture_txt of scripts/sync_fixtures.py. -/
def parse_openfootball_fixture_txt (lines : List String)
    (tm : List (String × String)) (season_year : Option String)
    (today : Day) : List FixtureRec :=
  (lines.foldl (txtLineStep tm season_year today) ⟨[], none⟩).fixtures

/-- parse_openfootball_csv of scripts/sync_fixtures.py: is_completed is
"score is not None" (an empty score string still counts), and the two
score halves are int(score.split('-')[i]) when score is truthy. -/
def parse_openfootball_csv (rows : List FixtureParsers.CsvRow)
    (tm : List (String × String)) : Option (List FixtureRec) :=
  rows.mapM fun row =>
    let hs? : Option (Option Int) :=
      match row.score with
      | some s =>
        if s ≠ "" then
          match splitOnChar '-' s.data with
          | p0 :: _ => (pyInt p0).map some
          | [] => none
        else some none
      | none => some none
    let as? : Option (Option Int) :=
      match row.score with
      | some s =>
        if s ≠ "" then
          match splitOnChar '-' s.data with
          | _ :: p1 :: _ => (pyInt p1).map some
          | _ => none
        else some none
      | none => some none
    match hs?, as? with
    | some hs, some as_ =>
      some { season := row.season, match_date := row.date,
             home_team := mapGetD tm row.home_team,
             away_team := mapGetD tm row.away_team,
             stage := row.stage, venue := row.venue,
             is_completed := row.score.isSome,
             home_score := hs, away_score := as_ }
    | _, _ => none

end SyncFx

/-! ## Club and squad parsers -/

/-- A club record dictionary. -/
structure ClubRec where
  name : String
  founded_year : Option Int
  stadium_name : Option String
  city : Option String
  country : Option String
  alternative_names : Option String
deriving DecidableEq, Repr

/-- A decoded club JSON object; the model assumes each entry is an object
with a string name (entries without one are skipped by the parsers-module
reader and rejected by validate_club in the sync variant). -/
structure ClubJson where
  name : String
  founded : Option Int := none
  stadium : Option String := none
  city : Option String := none
  country : Option String := none
  alt_names : Option (String ⊕ List String) := none
deriving Repr

/-- A player record dictionary (parsers/player_parser.py layout). -/
structure PlayerRec where
  name : String
  position : Option String
  birth_year : Option Int
  nationality : Option String
  club_name : Option String
  number : Option Int := none
  current_club : Option String := none
deriving DecidableEq, Repr

namespace ClubParsers

/-- The stadium/city scan over the comma fields after the founded year:
an @-field sets the stadium, a field containing both parentheses sets the
city to the part before '(', any other nonempty field overwrites the city. -/
def stadiumCity (ps : List (List Char)) : Option String × Option String :=
  ps.foldl
    (fun acc p =>
      match p with
      | '@' :: restP => (some (String.mk (pyStripL restP)), acc.2)
      | _ =>
        if p.contains '(' && p.contains ')' then
          (acc.1, some (String.mk (pyStripL (p.takeWhile (fun c => c ≠ '(')))))
        else if p ≠ [] then (acc.1, some (String.mk (pyStripL p)))
        else acc)
    (none, none)

/-- Alternative names harvested from the '|'-continuation lines: each line
is stripped of its leading '|' and of a trailing '#' comment, then split
on '|' into nonempty trimmed names. -/
def altNamesOf (conts : List String) : List String :=
  conts.foldl
    (fun acc l =>
      let a1 := pyStripL ((pyStripL l.data).drop 1)
      let a2 := pyStripL (a1.takeWhile (fun c => c ≠ '#'))
      if a2 = [] then acc
      else acc ++ ((splitOnChar '|' a2).map pyStripL).filterMap
        (fun n => if n = [] then none else some (String.mk n)))
    []

/-- One club entry from its header line and continuation lines. -/
def clubOfLine (line : String) (conts : List String) (country : Option String) :
    ClubRec :=
  let parts := (splitOnChar ',' line.data).map pyStripL
  let name := String.mk (parts.headD [])
  let founded : Option Int :=
    match parts with
    | _ :: p1 :: _ => if allDigits p1 then some (digitsVal p1 : Int) else none
    | _ => none
  let sc := stadiumCity (parts.drop 2)
  let alts := altNamesOf conts
  { name := name, founded_year := founded, stadium_name := sc.1,
    city := sc.2, country := country,
    alternative_names :=
      if alts ≠ [] then some (String.intercalate "," alts) else none }

def isContLine (s : String) : Bool := pyStartsWith (pyStrip s) "|"

/-- The while loop of parse_club_txt, fuelled by the number of lines
(each step consumes at least one line, so the fuel never runs out when
started at the list length). -/
def parse_club_txt_go (country : Option String) :
    Nat → List String → List ClubRec
  | _, [] => []
  | 0, _ :: _ => []
  | Nat.succ n, l :: rest =>
    let line := pyStrip l
    if line = "" || pyStartsWith line "=" || pyStartsWith line "#" then
      parse_club_txt_go country n rest
    else
      clubOfLine line (rest.takeWhile isContLine) country ::
        parse_club_txt_go country n (rest.dropWhile isContLine)

/-- parse_club_txt of scripts/parsers/club_parser.py (the loop body of
parse_openfootball_club_txt in scripts/sync_fixtures.py is identical):
skip blank/comment lines, read a header line plus its '|' continuation
lines into one club record, and continue after them. -/
def parse_club_txt (lines : List String) (country : Option String) :
    List ClubRec :=
  parse_club_txt_go country lines.length lines

/-- parse_club_json of scripts/parsers/club_parser.py: maps the name
through the team mapper and normalises alt_names (a falsy value becomes
None, a nonempty string stands alone, a list is comma-joined). -/
def parse_club_json (data : List ClubJson) (tm : List (String × String)) :
    List ClubRec :=
  data.map fun club =>
    let altStr : Option String :=
      match club.alt_names with
      | none => none
      | some (Sum.inl s) => if s = "" then none else some s
      | some (Sum.inr l) =>
        if l = [] then none else some (String.intercalate "," l)
    { name := mapGetD tm club.name, founded_year := club.founded,
      stadium_name := club.stadium, city := club.city,
      country := club.country, alternative_names := altStr }

end ClubParsers

namespace SyncFx

/-- parse_openfootball_json of scripts/sync_fixtures.py: no team mapping;
a list-valued alt_names is always comma-joined (an empty list becomes the
empty string, not None). -/
def parse_openfootball_json (data : List ClubJson) : List ClubRec :=
  data.map fun club =>
    { name := club.name, founded_year := club.founded,
      stadium_name := club.stadium, city := club.city,
      country := club.country,
      alternative_names :=
        match club.alt_names with
        | none => none
        | some (Sum.inl s) => some s
        | some (Sum.inr l) => some (String.intercalate "," l) }

/-- validate_club of scripts/sync_fixtures.py: a falsy name is rejected;
a founded year outside 1800..now().year is rejected. -/
def validate_club (c : ClubRec) (currentYear : Nat) : Bool :=
  if c.name = "" then false
  else
    match c.founded_year with
    | some fy => if fy < 1800 || fy > (currentYear : Int) then false else true
    | none => true

end SyncFx

namespace PlayerParsers

/-- The trailing-field scan of parse_squad_txt: "b. YYYY" sets the birth
year (keeping the old value on an int failure), a parenthesised token of
at most four characters sets the nationality, and any other nonempty
field becomes the current club. -/
def squadTrailing (ps : List (List Char)) :
    Option Int × Option String × Option String :=
  ps.foldl
    (fun acc p =>
      if ['b', '.', ' '].isPrefixOf p then
        let t := pyStripL (pyRemoveAll ['b', '.', ' '] p)
        match pyInt t with
        | some v => (some v, acc.2.1, acc.2.2)
        | none => acc
      else if p.contains '(' && p.contains ')' then
        let i := (p.indexOf? '(').getD 0
        let j := (p.indexOf? ')').getD 0
        let nat := (p.drop (i + 1)).take (j - (i + 1))
        if nat.length ≤ 4 then (acc.1, some (String.mk nat), acc.2.2) else acc
      else if p ≠ [] then (acc.1, acc.2.1, some (String.mk p))
      else acc)
    (none, none, none)

/-- parse_squad_txt of scripts/parsers/player_parser.py: one player per
comma-separated line with at least three fields. -/
def parse_squad_txt (lines : List String) (club_name : Option String) :
    List PlayerRec :=
  lines.foldl
    (fun acc rawLine =>
      let line := pyStrip rawLine
      if line = "" || pyStartsWith line "=" || pyStartsWith line "#" then acc
      else
        let parts := (splitOnChar ',' line.data).map pyStripL
        if parts.length < 3 then acc
        else
          let number :=
            if allDigits (parts.headD []) then
              some ((digitsVal (parts.headD [])) : Int)
            else none
          let tr := squadTrailing (parts.drop 3)
          acc ++ [{ name := String.mk (parts.getD 1 []),
                    position := some (String.mk (parts.getD 2 [])),
                    birth_year := tr.1, nationality := tr.2.1,
                    club_name := club_name, number := number,
                    current_club := tr.2.2 }])
    []

end PlayerParsers

/-! ## The persisted store

The SQLAlchemy session over the schema of app/models/models.py is
modelled as an explicit record store.  Fixture.match_date is a Date
column there, so values read back from a query are datetime.date objects
(modelled by Day), while the ingestion code below handles dates as
strings: a dedup-key component is therefore a PyKeyPart, whose
constructors are never equal across kinds, exactly as cross-type == in
Python is always False.  Writing a string into the Date column is
modelled by the PostgreSQL cast of an ISO string (the scripts' default
DATABASE_URL is postgresql+psycopg2). -/

structure DbClub where
  id : Nat
  name : String
  founded_year : Option Int := none
  stadium_name : Option String := none
  city : Option String := none
  country : Option String := none
  alternative_names : Option String := none
deriving DecidableEq, Repr

structure DbTeam where
  id : Nat
  club_id : Option Nat
  team_type : String
deriving DecidableEq, Repr

structure DbResult where
  home_score : Option Int
  away_score : Option Int
deriving DecidableEq, Repr

structure DbFixture where
  id : Nat
  season_id : Option Nat := none
  match_date : Option Day
  home_team_id : Option Nat
  away_team_id : Option Nat
  stage : Option String := none
  venue : Option String := none
  is_completed : Bool := false
  result : Option DbResult := none
deriving DecidableEq, Repr

structure DbPlayer where
  id : Nat
  name : String
  position : Option String := none
  nationality : Option String := none
  date_of_birth : Option Day := none
  club_id : Option Nat := none
  team_id : Option Nat := none
deriving DecidableEq, Repr

structure DbComp where
  id : Nat
  name : String
  country : Option String := none
  competition_type : Option String := none
deriving DecidableEq, Repr

structure DbSeason where
  id : Nat
  competition_id : Option Nat := none
  year_start : Int
  year_end : Int
  season_name : String
deriving DecidableEq, Repr

structure DbAudit where
  repo : String
  file_path : String
  ingested_at : String
  records_added : Nat
  records_updated : Nat
  hash : String
deriving DecidableEq, Repr

structure Store where
  clubs : List DbClub := []
  teams : List DbTeam := []
  fixtures : List DbFixture := []
  players : List DbPlayer := []
  competitions : List DbComp := []
  seasons : List DbSeason := []
  audits : List DbAudit := []
  nextId : Nat := 1
deriving Repr

/-- A component of the fixture dedup key, as a dynamically typed Python
value: a str, a datetime.date, an int, or None.  Distinct kinds are never
equal, as in Python. -/
inductive PyKeyPart where
  | s (v : String)
  | d (v : Day)
  | i (v : Nat)
  | nul
deriving DecidableEq, Repr

/-- The dedup-key triple. -/
abbrev FxKey := PyKeyPart × PyKeyPart × PyKeyPart

/-- The key of a stored fixture row, as Python builds it from query
results: the Date column reads back as a datetime.date. -/
def dbFxKey (fx : DbFixture) : FxKey :=
  (match fx.match_date with | some dv => PyKeyPart.d dv | none => PyKeyPart.nul,
   match fx.home_team_id with | some h => PyKeyPart.i h | none => PyKeyPart.nul,
   match fx.away_team_id with | some a => PyKeyPart.i a | none => PyKeyPart.nul)

/-- The key of an incoming record at the `key in existing` lookup: the
match_date component is still a str (or None). -/
def recFxKey (md : Option String) (h a : Nat) : FxKey :=
  (match md with | some sv => PyKeyPart.s sv | none => PyKeyPart.nul,
   PyKeyPart.i h, PyKeyPart.i a)

/-- PostgreSQL cast of a string bound to a Date column (inputs reaching an
insert are validator-approved ISO strings; anything unparsable would make
the INSERT itself fail and is modelled as NULL). -/
def castDate (md : Option String) : Option Day :=
  md.bind strptimeYmdS

/-- Update one fixture row in place. -/
def Store.setFixture (db : Store) (fid : Nat) (f : DbFixture → DbFixture) :
    Store :=
  { db with fixtures := db.fixtures.map fun fx => if fx.id = fid then f fx else fx }

/-! ## The shared find-or-create of placeholder clubs/teams

In both bulk_upsert_fixtures variants the body run for a missing home or
away team id is literally identical. -/

/-- State threaded through bulk_upsert_fixtures. -/
structure UpsertState where
  db : Store
  club_map : List (String × Nat)
  team_map : List (String × Nat)
  to_insert : List DbFixture
  updated : Nat
  placeholders : Nat
deriving Repr

/-- The inner "if not club_id" block: query the Club by exact name, create
it with a null country when absent, and record it in club_map. -/
def clubLookup (st : UpsertState) (name : String) :
    Store × List (String × Nat) × Nat :=
  match st.db.clubs.find? (fun c => c.name = name) with
  | some c => (st.db, pySet st.club_map name c.id, c.id)
  | none =>
    let cid := st.db.nextId
    let db1 := { st.db with
      clubs := st.db.clubs ++ [{ id := cid, name := name, country := none }],
      nextId := st.db.nextId + 1 }
    (db1, pySet st.club_map name cid, cid)

/-- The placeholder branch run when team_map has no truthy id for the
name: find or create the Club, then find or create a Team of team_type
"club" for it, and cache the team id in team_map. -/
def resolveMissing (st : UpsertState) (name : String) : UpsertState × Nat :=
  let step1 : Store × List (String × Nat) × Nat :=
    match pyGet st.club_map name with
    | some cid => if cid ≠ 0 then (st.db, st.club_map, cid) else clubLookup st name
    | none => clubLookup st name
  let db1 := step1.1
  let clubMap1 := step1.2.1
  let clubId := step1.2.2
  match db1.teams.find? (fun t => t.club_id = some clubId && t.team_type = "club") with
  | some t =>
    ({ st with db := db1, club_map := clubMap1,
               team_map := pySet st.team_map name t.id }, t.id)
  | none =>
    let tid := db1.nextId
    let db2 := { db1 with
      teams := db1.teams ++ [{ id := tid, club_id := some clubId, team_type := "club" }],
      nextId := db1.nextId + 1 }
    ({ st with db := db2, club_map := clubMap1,
               team_map := pySet st.team_map name tid,
               placeholders := st.placeholders + 1 }, tid)

/-- Resolve one team name to an id: the cached team_map id when truthy,
the placeholder branch otherwise. -/
def resolveTeam (st : UpsertState) (name : String) : UpsertState × Nat :=
  match pyGet st.team_map name with
  | some tid => if tid ≠ 0 then (st, tid) else resolveMissing st name
  | none => resolveMissing st name

/-- The batch name lookups shared by both variants: club_map from clubs
whose name occurs in the batch, team_map from teams of those clubs keyed
by the first club carrying the team's club_id (later teams overwrite
earlier ones per name). -/
def buildMaps (db : Store) (names : List String) :
    List (String × Nat) × List (String × Nat) :=
  let clubs := db.clubs.filter (fun c => names.contains c.name)
  let club_map := clubs.foldl (fun m c => pySet m c.name c.id) []
  let clubIds := club_map.map (·.2)
  let teams := db.teams.filter (fun t =>
    match t.club_id with
    | some cid => clubIds.contains cid
    | none => false)
  let team_map := teams.foldl
    (fun m t =>
      match t.club_id with
      | some cid =>
        match db.clubs.find? (fun c => c.id = cid) with
        | some club => pySet m club.name t.id
        | none => m
      | none => m)
    []
  (club_map, team_map)

/-- db.bulk_save_objects(to_insert): append the new fixture rows,
assigning fresh ids. -/
def bulkSaveFixtures (db : Store) (to_insert : List DbFixture) : Store :=
  to_insert.foldl
    (fun acc fx =>
      { acc with
        fixtures := acc.fixtures ++ [{ fx with id := acc.nextId }],
        nextId := acc.nextId + 1 })
    db

namespace FixtureParsers

/-- The existing-fixtures fetch: rows whose date column matches any of the
batch's ISO date strings (cast by the database) and whose team ids occur
among the batch's, folded into a dict keyed by the read-back
(date, home, away) triple. -/
def existingFetch (db : Store) (keys : List (String × Nat × Nat)) :
    List (FxKey × Nat) :=
  let dates := keys.map (·.1)
  let homes := keys.map (·.2.1)
  let aways := keys.map (·.2.2)
  let fetched := db.fixtures.filter fun fx =>
    (match fx.match_date with
     | some dv => dates.any (fun s => strptimeYmdS s = some dv)
     | none => false) &&
    (match fx.home_team_id with
     | some h => homes.contains h
     | none => false) &&
    (match fx.away_team_id with
     | some a => aways.contains a
     | none => false)
  fetched.foldl (fun m fx => pySet m (dbFxKey fx) fx.id) []

/-- The update branch of the parsers-module bulk_upsert_fixtures: field
change detection on stage, venue (only overwritten by a truthy value),
is_completed, and the result scores; returns whether anything changed. -/
def applyUpdate (db : Store) (fid : Nat) (f : FixtureRec) : Store × Bool :=
  match db.fixtures.find? (fun fx => fx.id = fid) with
  | none => (db, false)
  | some fx =>
    let s1 := if fx.stage ≠ f.stage then
        (({ fx with stage := f.stage } : DbFixture), true) else (fx, false)
    let s2 := if s1.1.venue ≠ f.venue && truthyStr f.venue then
        ({ s1.1 with venue := f.venue }, true) else s1
    let s3 := if s2.1.is_completed ≠ f.is_completed then
        ({ s2.1 with is_completed := f.is_completed }, true) else s2
    let s4 :=
      if f.is_completed && f.home_score.isSome && f.away_score.isSome then
        match s3.1.result with
        | some r =>
          if r.home_score ≠ f.home_score || r.away_score ≠ f.away_score then
            ({ s3.1 with result := some ⟨f.home_score, f.away_score⟩ }, true)
          else s3
        | none => ({ s3.1 with result := some ⟨f.home_score, f.away_score⟩ }, true)
      else s3
    (db.setFixture fid (fun _ => s4.1), s4.2)

/-- One record of the main loop: resolve the two teams (creating
placeholders), skip on a falsy date or id, update the existing row when
the key is found, otherwise queue an insert. -/
def upsertOne (season_id : Option Nat) (existing : List (FxKey × Nat))
    (st : UpsertState) (f : FixtureRec) : UpsertState :=
  let r1 := resolveTeam st f.home_team
  let r2 := resolveTeam r1.1 f.away_team
  let st2 := r2.1
  let home_id := r1.2
  let away_id := r2.2
  if !truthyStr f.match_date || home_id = 0 || away_id = 0 then st2
  else
    match pyGet existing (recFxKey f.match_date home_id away_id) with
    | some fid =>
      let u := applyUpdate st2.db fid f
      { st2 with db := u.1, updated := st2.updated + (if u.2 then 1 else 0) }
    | none =>
      { st2 with to_insert := st2.to_insert ++
          [{ id := 0, season_id := season_id,
             match_date := castDate f.match_date,
             home_team_id := some home_id, away_team_id := some away_id,
             stage := f.stage, venue := f.venue,
             is_completed := f.is_completed,
             result :=
               if f.is_completed && f.home_score.isSome && f.away_score.isSome
               then some ⟨f.home_score, f.away_score⟩ else none }] }

/-- bulk_upsert_fixtures of scripts/parsers/fixture_parser.py: validate,
batch-fetch clubs/teams/existing fixtures, then process each record,
bulk-saving the queued inserts; returns (added, updated). -/
def bulk_upsert_fixtures (db : Store) (fixtures : List FixtureRec)
    (season_id : Option Nat) : Store × Nat × Nat :=
  if fixtures.isEmpty then (db, 0, 0)
  else
    let valid := fixtures.filter validate_fixture
    if valid.isEmpty then (db, 0, 0)
    else
      let names := valid.foldl (fun acc f => acc ++ [f.home_team, f.away_team]) []
      let maps := buildMaps db names
      let keys := valid.foldl
        (fun ks f =>
          let h := pyGet maps.2 f.home_team
          let a := pyGet maps.2 f.away_team
          if truthyStr f.match_date && truthyId h && truthyId a then
            ks ++ [(f.match_date.getD "", h.getD 0, a.getD 0)]
          else ks)
        []
      let existing := existingFetch db keys
      let final := valid.foldl (upsertOne season_id existing)
        ⟨db, maps.1, maps.2, [], 0, 0⟩
      (bulkSaveFixtures final.db final.to_insert,
       final.to_insert.length, final.updated)

end FixtureParsers

namespace SyncFx

/-- The existing-fixtures fetch of the sync_fixtures variant: the date
list keeps None entries (which SQL IN never matches), the id lists are
truthiness-filtered. -/
def existingFetch (db : Store)
    (keys : List (Option String × Option Nat × Option Nat)) :
    List (FxKey × Nat) :=
  let dates := keys.map (·.1)
  let homes := keys.filterMap fun k =>
    match k.2.1 with
    | some h => if h ≠ 0 then some h else none
    | none => none
  let aways := keys.filterMap fun k =>
    match k.2.2 with
    | some a => if a ≠ 0 then some a else none
    | none => none
  let fetched := db.fixtures.filter fun fx =>
    (match fx.match_date with
     | some dv =>
       dates.any fun s? =>
         match s? with
         | some s => strptimeYmdS s = some dv
         | none => false
     | none => false) &&
    (match fx.home_team_id with
     | some h => homes.contains h
     | none => false) &&
    (match fx.away_team_id with
     | some a => aways.contains a
     | none => false)
  fetched.foldl (fun m fx => pySet m (dbFxKey fx) fx.id) []

/-- The update branch of the sync_fixtures bulk_upsert_fixtures: only the
result row is updated (created when absent, overwritten when the scores
differ); stage, venue and is_completed are left alone. -/
def applyUpdate (db : Store) (fid : Nat) (f : FixtureRec) : Store × Bool :=
  match db.fixtures.find? (fun fx => fx.id = fid) with
  | none => (db, false)
  | some fx =>
    match fx.result with
    | some r =>
      if r.home_score ≠ f.home_score || r.away_score ≠ f.away_score then
        (db.setFixture fid
          (fun v => { v with result := some ⟨f.home_score, f.away_score⟩ }),
         true)
      else (db, false)
    | none =>
      (db.setFixture fid
        (fun v => { v with result := some ⟨f.home_score, f.away_score⟩ }),
       true)

/-- One record of the sync_fixtures main loop: no missing-date skip, so
fixtures with a None date can be inserted. -/
def upsertOne (season_id : Option Nat) (existing : List (FxKey × Nat))
    (st : UpsertState) (f : FixtureRec) : UpsertState :=
  let r1 := resolveTeam st f.home_team
  let r2 := resolveTeam r1.1 f.away_team
  let st2 := r2.1
  let home_id := r1.2
  let away_id := r2.2
  if home_id = 0 || away_id = 0 then st2
  else
    match pyGet existing (recFxKey f.match_date home_id away_id) with
    | some fid =>
      let u := applyUpdate st2.db fid f
      { st2 with db := u.1, updated := st2.updated + (if u.2 then 1 else 0) }
    | none =>
      { st2 with to_insert := st2.to_insert ++
          [{ id := 0, season_id := season_id,
             match_date := castDate f.match_date,
             home_team_id := some home_id, away_team_id := some away_id,
             stage := f.stage, venue := f.venue,
             is_completed := f.is_completed,
             result :=
               if f.is_completed
               then some ⟨f.home_score, f.away_score⟩ else none }] }

/-- bulk_upsert_fixtures of scripts/sync_fixtures.py (no internal
validation; callers filter with validate_fixture first). -/
def bulk_upsert_fixtures (db : Store) (fixtures : List FixtureRec)
    (season_id : Option Nat) : Store × Nat × Nat :=
  let names := fixtures.foldl (fun acc f => acc ++ [f.home_team, f.away_team]) []
  let maps := buildMaps db names
  let keys := fixtures.map fun f =>
    (f.match_date, pyGet maps.2 f.home_team, pyGet maps.2 f.away_team)
  let existing := existingFetch db keys
  let final := fixtures.foldl (upsertOne season_id existing)
    ⟨db, maps.1, maps.2, [], 0, 0⟩
  (bulkSaveFixtures final.db final.to_insert,
   final.to_insert.length, final.updated)

/-- bulk_upsert_clubs of scripts/sync_fixtures.py: names already stored
take the update path (overwriting the five data fields whenever any
differs, None included); new names are queued for insert, with the name
added to the existing-set so that a later duplicate in the batch falls
into the (then fruitless) update path. -/
def bulk_upsert_clubs (db : Store) (clubs : List ClubRec) : Store × Nat × Nat :=
  let names := clubs.map (fun c => c.name)
  let existing0 := (db.clubs.filter (fun c => names.contains c.name)).map
    (fun c => c.name)
  let final := clubs.foldl
    (fun (acc : Store × List String × List ClubRec × Nat) club =>
      let db0 := acc.1
      let exNames := acc.2.1
      let toIns := acc.2.2.1
      let toUpd := acc.2.2.2
      if exNames.contains club.name then
        match db0.clubs.find? (fun c => c.name = club.name) with
        | none => acc
        | some dbc =>
          let changed :=
            dbc.founded_year ≠ club.founded_year ||
            dbc.stadium_name ≠ club.stadium_name ||
            dbc.city ≠ club.city ||
            dbc.country ≠ club.country ||
            dbc.alternative_names ≠ club.alternative_names
          let db1 := { db0 with clubs := db0.clubs.map fun c =>
            if c.id = dbc.id then
              { c with founded_year := club.founded_year,
                       stadium_name := club.stadium_name,
                       city := club.city, country := club.country,
                       alternative_names := club.alternative_names }
            else c }
          (db1, exNames, toIns, toUpd + (if changed then 1 else 0))
      else
        (db0, exNames ++ [club.name], toIns ++ [club], toUpd))
    (db, existing0, [], 0)
  let db1 := final.2.2.1.foldl
    (fun acc c =>
      { acc with
        clubs := acc.clubs ++
          [{ id := acc.nextId, name := c.name,
             founded_year := c.founded_year, stadium_name := c.stadium_name,
             city := c.city, country := c.country,
             alternative_names := c.alternative_names }],
        nextId := acc.nextId + 1 })
    final.1
  (db1, final.2.2.1.length, final.2.2.2)

/-- datetime(year, 1, 1), raising outside 1..9999. -/
def datetimeJan1 (y : Int) : Option Day :=
  if 1 ≤ y && y ≤ 9999 then some ⟨y.toNat, 1, 1⟩ else none

/-- bulk_upsert_players of scripts/sync_fixtures.py. -/
def bulk_upsert_players (db : Store) (players : List PlayerRec)
    (club_id team_id : Option Nat) : Store × Nat × Nat :=
  let names := players.map (fun p => p.name)
  let existing := (db.players.filter (fun p => names.contains p.name)).foldl
    (fun m p => pySet m p.name p.id) []
  let final := players.foldl
    (fun (acc : Store × List DbPlayer × Nat) p =>
      let db0 := acc.1
      match pyGet existing p.name with
      | some pid =>
        match db0.players.find? (fun q => q.id = pid) with
        | none => acc
        | some row =>
          let s1 := if row.position ≠ p.position && p.position.isSome then
              (({ row with position := p.position } : DbPlayer), true)
            else (row, false)
          let s2 := if s1.1.nationality ≠ p.nationality && p.nationality.isSome
            then ({ s1.1 with nationality := p.nationality }, true) else s1
          let s3 := if s2.1.club_id ≠ club_id && club_id.isSome then
              ({ s2.1 with club_id := club_id }, true) else s2
          let s4 := if s3.1.team_id ≠ team_id && team_id.isSome then
              ({ s3.1 with team_id := team_id }, true) else s3
          let s5 :=
            match p.birth_year with
            | some by0 =>
              if by0 ≠ 0 &&
                 (match s4.1.date_of_birth with
                  | none => true
                  | some dob => (dob.y : Int) ≠ by0) then
                match datetimeJan1 by0 with
                | some dob => ({ s4.1 with date_of_birth := some dob }, true)
                | none => s4
              else s4
            | none => s4
          let db1 := { db0 with players := db0.players.map fun q =>
            if q.id = pid then s5.1 else q }
          (db1, acc.2.1, acc.2.2 + (if s5.2 then 1 else 0))
      | none =>
        let dob :=
          match p.birth_year with
          | some by0 => if by0 ≠ 0 then datetimeJan1 by0 else none
          | none => none
        (db0,
         acc.2.1 ++ [{ id := 0, name := p.name, position := p.position,
                       nationality := p.nationality, date_of_birth := dob,
                       club_id := club_id, team_id := team_id }],
         acc.2.2))
    (db, [], 0)
  let db1 := final.2.1.foldl
    (fun acc pl =>
      { acc with players := acc.players ++ [{ pl with id := acc.nextId }],
                 nextId := acc.nextId + 1 })
    final.1
  (db1, final.2.1.length, final.2.2)

/-- get_or_create_season, identical in scripts/sync_fixtures.py and
scripts/enhanced_ingestion.py: find or create a Competition named after
the repo, then find or create the Season for
(year_start, year_start + 1, competition).  Callers only pass a season
year matching \d{4}, so int(season_year) cannot raise. -/
def get_or_create_season (db : Store) (season_year : Option String)
    (repo_name : Option String) : Store × Option Nat :=
  if !truthyStr season_year then (db, none)
  else
    let stage1 : Store × Option Nat :=
      if truthyStr repo_name then
        match db.competitions.find? (fun c => c.name = repo_name.getD "") with
        | some c => (db, some c.id)
        | none =>
          let cid := db.nextId
          ({ db with
             competitions := db.competitions ++
               [{ id := cid, name := repo_name.getD "", country := none,
                  competition_type := none }],
             nextId := db.nextId + 1 }, some cid)
      else (db, none)
    let db1 := stage1.1
    let compId := stage1.2
    let ys : Int := (pyIntS (season_year.getD "")).getD 0
    let ye := ys + 1
    let season? := db1.seasons.find? fun s =>
      s.year_start = ys && s.year_end = ye &&
      (match compId with
       | some cid => s.competition_id = some cid
       | none => true)
    match season? with
    | some s => (db1, some s.id)
    | none =>
      let sid := db1.nextId
      ({ db1 with
         seasons := db1.seasons ++
           [{ id := sid, competition_id := compId, year_start := ys,
              year_end := ye,
              season_name := toString ys ++ "-" ++ toString ye }],
         nextId := db1.nextId + 1 }, some sid)

/-- log_audit: append one IngestionAudit row and commit. -/
def log_audit (db : Store) (repo file_path ingested_at : String)
    (added updated : Nat) (sha1 : String) : Store :=
  { db with audits := db.audits ++
      [{ repo := repo, file_path := file_path, ingested_at := ingested_at,
         records_added := added, records_updated := updated, hash := sha1 }] }

/-- parse_openfootball_squad_txt of scripts/sync_fixtures.py: like the
parsers-module squad reader but with no number or current-club fields,
and a failing "b. YYYY" int resets the birth year to None. -/
def parse_openfootball_squad_txt (lines : List String)
    (club_name : Option String) : List PlayerRec :=
  lines.foldl
    (fun acc rawLine =>
      let line := pyStrip rawLine
      if line = "" || pyStartsWith line "=" then acc
      else
        let parts := (splitOnChar ',' line.data).map pyStripL
        if parts.length < 3 then acc
        else
          let tr := parts.drop 3 |>.foldl
            (fun (t : Option Int × Option String) p =>
              if ['b', '.', ' '].isPrefixOf p then
                let s := pyStripL (pyRemoveAll ['b', '.', ' '] p)
                (pyInt s, t.2)
              else if p.contains '(' && p.contains ')' then
                let i := (p.indexOf? '(').getD 0
                let j := (p.indexOf? ')').getD 0
                let nat := (p.drop (i + 1)).take (j - (i + 1))
                if nat.length ≤ 4 then (t.1, some (String.mk nat)) else t
              else t)
            (none, none)
          acc ++ [{ name := String.mk (parts.getD 1 []),
                    position := some (String.mk (parts.getD 2 [])),
                    birth_year := tr.1, nationality := tr.2,
                    club_name := club_name }])
    []

end SyncFx

/-! ## Path classification helpers of the sync drivers -/

/-- Python str.title() (ASCII): uppercase a letter that follows a
non-letter, lowercase the others. -/
def pyTitle (s : String) : String :=
  String.mk ((s.data.foldl
    (fun (acc : List Char × Bool) c =>
      if c.isAlpha then
        (acc.1 ++ [if acc.2 then c.toLower else c.toUpper], true)
      else (acc.1 ++ [c], false))
    ([], false)).1)

/-- os.path.splitext stem of a file name: everything before the last dot,
provided the dot is not the leading character. -/
def splitExtStem (name : String) : String :=
  let cs := name.data
  match cs.reverse.indexOf? '.' with
  | some k =>
    let i := cs.length - 1 - k
    if 1 ≤ i then String.mk (cs.take i) else name
  | none => name

/-- str.replace('_', ' '). -/
def underscoresToSpaces (s : String) : String :=
  String.mk (s.data.map fun c => if c = '_' then ' ' else c)

/-- re.match(r"\d{4}-\d{2}", part): a path component starting with
four digits, a dash, and two digits. -/
def seasonPartOk (s : String) : Bool :=
  match s.data with
  | a :: b :: c :: d :: '-' :: e :: f :: _ =>
    a.isDigit && b.isDigit && c.isDigit && d.isDigit && e.isDigit && f.isDigit
  | _ => false

/-- extract_season_year of scripts/enhanced_ingestion.py: the first four
characters of the first matching path component. -/
def extractSeasonYearFirst (parts : List String) : Option String :=
  (parts.find? seasonPartOk).map fun p => String.mk (p.data.take 4)

/-- The inline season-year scan of scripts/sync_fixtures.py: the last
matching path component wins. -/
def extractSeasonYearLast (parts : List String) : Option String :=
  ((parts.filter seasonPartOk).getLast?).map fun p => String.mk (p.data.take 4)

/-- infer_country_from_path of scripts/enhanced_ingestion.py: the whole
path is lowercased before splitting, so the titled first hit is returned. -/
def countriesEnhanced : List String :=
  ["england", "france", "germany", "italy", "spain", "brazil",
   "portugal", "netherlands", "belgium", "scotland", "switzerland",
   "austria", "turkey", "russia", "ukraine", "greece", "denmark",
   "sweden", "norway", "finland", "poland", "romania", "serbia",
   "croatia", "bulgaria", "czechia", "slovakia", "hungary", "slovenia"]

def infer_country_from_path (parts : List String) : Option String :=
  ((parts.map pyLower).find? (fun p => countriesEnhanced.contains p)).map pyTitle

/-- The inline country scan of the sync_fixtures club-text branch: the
last matching component wins, titled from its original casing. -/
def countriesSync : List String :=
  ["england", "france", "germany", "italy", "spain", "brazil"]

def inferCountrySync (parts : List String) : Option String :=
  ((parts.filter (fun p => countriesSync.contains (pyLower p))).getLast?).map
    pyTitle

/-! ## The incremental sync drivers -/

/-- Decoded content of one on-disk file: text lines, a club JSON list, or
CSV rows. -/
inductive FileContent where
  | text (lines : List String)
  | json (clubs : List ClubJson)
  | csv (rows : List FixtureParsers.CsvRow)

/-- One file met during the os.walk of a repo: the directory components
of its root, its name, its repo-relative path, its SHA-1 content hash
(opaque here), and its decoded content. -/
structure FileEntry where
  rootParts : List String
  name : String
  relpath : String
  sha1 : String
  content : FileContent

def FileContent.asText : FileContent → List String
  | .text l => l
  | _ => []

def FileContent.asJson : FileContent → List ClubJson
  | .json c => c
  | _ => []

def FileContent.asCsv : FileContent → List FixtureParsers.CsvRow
  | .csv r => r
  | _ => []

/-- 'squads' in part.lower() for any root component. -/
def inSquadsDir (f : FileEntry) : Bool :=
  f.rootParts.any fun p => containsSub (pyLower p) "squads"

/-- 'clubs' in part.lower() for any root component. -/
def inClubsDir (f : FileEntry) : Bool :=
  f.rootParts.any fun p => containsSub (pyLower p) "clubs"

/-- 'club' in file.lower(). -/
def isClubFile (f : FileEntry) : Bool :=
  containsSub (pyLower f.name) "club"

/-- file.endswith('.txt') and not in squads/clubs dirs and not a club file. -/
def isFixtureTxt (f : FileEntry) : Bool :=
  pyEndsWith f.name ".txt" && !inSquadsDir f && !inClubsDir f && !isClubFile f

/-- The state map persisted in state.json. -/
abbrev StateMap := List (String × String)

/-- state_key = f"(repo)/(relpath)". -/
def stateKey (repoName : String) (f : FileEntry) : String :=
  repoName ++ "/" ++ f.relpath

namespace Enhanced

/-- Names bound at module level in scripts/enhanced_ingestion.py
(imports, constants, classes and functions), plus the names imported
locally inside the sync_repo branch bodies. -/
def moduleScope : List String :=
  ["os", "sys", "json", "hashlib", "argparse", "logging", "re", "datetime",
   "Dict", "List", "Set", "Tuple", "Optional", "Any", "Session",
   "SQLAlchemyError", "subprocess", "Path", "concurrent", "time",
   "settings", "SessionLocal", "Fixture", "MatchResult", "Club", "Player",
   "Team", "Season", "Competition", "Ground", "Group", "IngestionAudit",
   "TeamType", "DATA_PATH", "STATE_FILE_PATH", "TEAM_MAPPER_PATH",
   "IngestionStats", "sha1_of_file", "load_state", "save_state",
   "git_pull_if_repo", "normalize_date", "log_audit", "sync_repo",
   "infer_country_from_path", "extract_season_year", "get_or_create_season",
   "main"]

def branchLocalImports : List String :=
  ["parse_club_json", "parse_club_txt", "parse_fixture_csv",
   "parse_fixture_txt", "parse_squad_txt"]

/-- One file of sync_repo in scripts/enhanced_ingestion.py.  Every routed
branch parses, but then calls bulk_upsert_clubs / bulk_upsert_fixtures /
bulk_upsert_players, none of which is bound in the module (see
moduleScope/branchLocalImports): the call raises NameError, the per-file
`except Exception` handler logs it, and neither log_audit nor the
state-map advance `state[state_key] = sha1` is reached.  The fixture
branches have already run get_or_create_season by then, whose
Competition/Season commits survive.  Unrouted files fall through to the
else branch and do advance the state map. -/
def processFile (repoName : String) (tm : List (String × String))
    (force : Bool) (currentYear : Nat) (today : Day)
    (acc : Store × StateMap) (f : FileEntry) : Store × StateMap :=
  let db := acc.1
  let state := acc.2
  let key := stateKey repoName f
  if !force && pyGet state key = some f.sha1 then (db, state)
  else
    if pyEndsWith f.name ".json" && isClubFile f then
      let _clubs := ClubParsers.parse_club_json f.content.asJson tm
      (db, state)
    else if pyEndsWith f.name ".txt" && isClubFile f then
      let country := infer_country_from_path (f.rootParts ++ [f.name])
      let _clubs := ClubParsers.parse_club_txt f.content.asText country
      (db, state)
    else if pyEndsWith f.name ".csv" then
      let sy := extractSeasonYearFirst (f.rootParts ++ [f.name])
      let r := SyncFx.get_or_create_season db sy (some repoName)
      let _fxs := FixtureParsers.parse_fixture_csv f.content.asCsv tm
      (r.1, state)
    else if isFixtureTxt f then
      let sy := extractSeasonYearFirst (f.rootParts ++ [f.name])
      let r := SyncFx.get_or_create_season db sy (some repoName)
      let _fxs := FixtureParsers.parse_fixture_txt f.content.asText tm sy
        currentYear today
      (r.1, state)
    else if pyEndsWith f.name ".txt" && inSquadsDir f then
      let _players := PlayerParsers.parse_squad_txt f.content.asText
        (some (pyTitle (underscoresToSpaces (splitExtStem f.name))))
      (db, state)
    else
      (db, pySet state key f.sha1)

/-- sync_repo of scripts/enhanced_ingestion.py over the walked files. -/
def runRepo (repoName : String) (tm : List (String × String)) (force : Bool)
    (currentYear : Nat) (today : Day) (db : Store) (state : StateMap)
    (files : List FileEntry) : Store × StateMap :=
  files.foldl (processFile repoName tm force currentYear today) (db, state)

end Enhanced

namespace SyncFx

/-- One file of sync_repo in scripts/sync_fixtures.py.  All the
bulk_upsert functions are defined in this module, so routed branches
complete: they parse, validate, upsert, write one audit row, and advance
the state map.  A CSV whose score column fails int() raises out of
parse_openfootball_csv into the per-file handler: nothing of that file is
audited or advanced (its get_or_create_season commits survive). -/
def processFile (repoName : String) (tm : List (String × String))
    (force : Bool) (currentYear : Nat) (today : Day) (nowIso : String)
    (acc : Store × StateMap) (f : FileEntry) : Store × StateMap :=
  let db := acc.1
  let state := acc.2
  let key := stateKey repoName f
  if !force && pyGet state key = some f.sha1 then (db, state)
  else
    if pyEndsWith f.name ".json" && isClubFile f then
      let clubs := parse_openfootball_json f.content.asJson
      let valid := clubs.filter (fun c => validate_club c currentYear)
      let r := bulk_upsert_clubs db valid
      let db2 := log_audit r.1 repoName key nowIso r.2.1 r.2.2 f.sha1
      (db2, pySet state key f.sha1)
    else if pyEndsWith f.name ".txt" && isClubFile f then
      let country := inferCountrySync (f.rootParts ++ [f.name])
      let clubs := ClubParsers.parse_club_txt f.content.asText country
      let valid := clubs.filter (fun c => validate_club c currentYear)
      let r := bulk_upsert_clubs db valid
      let db2 := log_audit r.1 repoName key nowIso r.2.1 r.2.2 f.sha1
      (db2, pySet state key f.sha1)
    else if pyEndsWith f.name ".csv" then
      let sy := extractSeasonYearLast (f.rootParts ++ [f.name])
      let r0 := get_or_create_season db sy (some repoName)
      match parse_openfootball_csv f.content.asCsv tm with
      | none => (r0.1, state)
      | some fxs =>
        let valid := fxs.filter validate_fixture
        let r := bulk_upsert_fixtures r0.1 valid r0.2
        let db2 := log_audit r.1 repoName key nowIso r.2.1 r.2.2 f.sha1
        (db2, pySet state key f.sha1)
    else if isFixtureTxt f then
      let sy := extractSeasonYearLast (f.rootParts ++ [f.name])
      let r0 := get_or_create_season db sy (some repoName)
      let fxs := parse_openfootball_fixture_txt f.content.asText tm sy today
      let valid := fxs.filter validate_fixture
      let r := bulk_upsert_fixtures r0.1 valid r0.2
      let db2 := log_audit r.1 repoName key nowIso r.2.1 r.2.2 f.sha1
      (db2, pySet state key f.sha1)
    else if pyEndsWith f.name ".txt" && inSquadsDir f then
      let club_name := pyTitle (underscoresToSpaces (splitExtStem f.name))
      let club? := db.clubs.find? fun c =>
        containsSub (pyLower c.name) (pyLower club_name)
      let club_id := club?.map (fun c => c.id)
      let team? : Option DbTeam :=
        match club_id with
        | some cid => db.teams.find? (fun t => t.club_id = some cid)
        | none => none
      let players := parse_openfootball_squad_txt f.content.asText
        (some club_name)
      let r := bulk_upsert_players db players club_id (team?.map (fun t => t.id))
      let db2 := log_audit r.1 repoName key nowIso r.2.1 r.2.2 f.sha1
      (db2, pySet state key f.sha1)
    else
      (db, pySet state key f.sha1)

/-- sync_repo of scripts/sync_fixtures.py.  The debug block for the
eng-england repo reads the loop variable is_fixture_txt before its first
assignment: when the very first walked file lies in a "2024-25" root of
that repo, the read raises NameError outside the per-file try, aborting
the whole repo before anything is processed.  After the first file the
variables exist and the block only prints. -/
def runRepo (repoName : String) (tm : List (String × String)) (force : Bool)
    (currentYear : Nat) (today : Day) (nowIso : String) (db : Store)
    (state : StateMap) (files : List FileEntry) : Store × StateMap :=
  match files with
  | [] => (db, state)
  | f0 :: _ =>
    if repoName = "eng-england" &&
       f0.rootParts.any (fun p => containsSub p "2024-25") then (db, state)
    else
      files.foldl (processFile repoName tm force currentYear today nowIso)
        (db, state)

end SyncFx

/-! ## Post-hoc consistency repair -/

namespace Repair

/-- A stored fixture row as the repair scripts see it (MatchResult rows
are a separate table here, since their survival matters). -/
structure RFixture where
  id : Nat
  season_id : Option Nat
  match_date : Option Day
  home_team_id : Option Nat
  away_team_id : Option Nat
deriving DecidableEq, Repr

structure RMatchResult where
  id : Nat
  fixture_id : Option Nat
  home_score : Option Int := none
  away_score : Option Int := none
deriving DecidableEq, Repr

structure RStore where
  clubs : List DbClub := []
  teams : List DbTeam := []
  competitions : List DbComp := []
  seasons : List DbSeason := []
  fixtures : List RFixture := []
  match_results : List RMatchResult := []
deriving Repr

/-- The hand-maintained German keyword table of
scripts/clear_incorrect_fixtures.py (the duplicated entry is kept). -/
def GERMAN_TEAM_KEYWORDS : List String :=
  ["München", "Munchen", "Dortmund", "Bayern", "Nürnberg", "Nurnberg",
   "Köln", "Koln", "Werder", "Hertha", "Stuttgart", "Hamburg",
   "Leverkusen", "Flensburg", "Oldenburg", "Lübeck", "Lübeck", "Jeddeloh",
   "Havelse", "Kickers Emden", "Norderstedt", "Türkgücü"]

def SPANISH_TEAM_KEYWORDS : List String :=
  ["Madrid", "Barcelona", "Sevilla", "Valencia", "Atletico", "Atlético",
   "Villarreal", "Real", "Getafe", "Mallorca", "Vallecano", "Sociedad",
   "Almeria", "Cadiz", "Cádiz", "Las Palmas", "Girona", "Betis"]

/-- fixture.home_team.club.name if both exist, else "". -/
def clubNameOfTeam (db : RStore) (tid? : Option Nat) : String :=
  match tid? with
  | none => ""
  | some tid =>
    match db.teams.find? (fun t => t.id = tid) with
    | none => ""
    | some t =>
      match t.club_id with
      | none => ""
      | some cid =>
        match db.clubs.find? (fun c => c.id = cid) with
        | none => ""
        | some c => c.name

/-- fixture.season.competition.country if both exist, else None. -/
def compCountryOf (db : RStore) (fx : RFixture) : Option String :=
  match fx.season_id with
  | none => none
  | some sid =>
    match db.seasons.find? (fun s => s.id = sid) with
    | none => none
    | some s =>
      match s.competition_id with
      | none => none
      | some cid =>
        match db.competitions.find? (fun c => c.id = cid) with
        | none => none
        | some c => c.country

def isGermanName (name : String) : Bool :=
  GERMAN_TEAM_KEYWORDS.any fun k => containsSub name k

def isSpanishName (name : String) : Bool :=
  SPANISH_TEAM_KEYWORDS.any fun k => containsSub name k

/-- Fixture.match_date >= date.today(): a NULL date never satisfies the
SQL comparison. -/
def upcomingOk (fx : RFixture) (today : Day) : Bool :=
  match fx.match_date with
  | some d => Day.ble today d
  | none => false

/-- The fixtures of one competition with match_date >= today
(query join through Season). -/
def fixturesInComp (db : RStore) (compId : Nat) (today : Day) :
    List RFixture :=
  db.fixtures.filter fun fx =>
    (match fx.season_id with
     | some sid =>
       match db.seasons.find? (fun s => s.id = sid) with
       | some s => s.competition_id = some compId
       | none => false
     | none => false) && upcomingOk fx today

/-- The grouping key (home club name, away club name, match date). -/
def groupKey (db : RStore) (fx : RFixture) :
    String × String × Option Day :=
  (clubNameOfTeam db fx.home_team_id, clubNameOfTeam db fx.away_team_id,
   fx.match_date)

/-- The set of fixture ids deleted by clear_incorrect_fixtures of
scripts/clear_incorrect_fixtures.py, run with date.today() = today:
steps 4/5 flag single-country contamination inside Spain/Germany
competitions, step 6 flags, among upcoming fixtures grouped by
(home name, away name, date) irrespective of competition, the members of
a group of two or more filed under a country other than the one both
team names match, and step 9 additionally deletes both-German fixtures
from Spanish competitions.  Only fixtures dated today or later are ever
considered. -/
def deletedIds (db : RStore) (today : Day) : List Nat :=
  let spanishComps := db.competitions.filter fun c => c.country = some "Spain"
  let germanComps := db.competitions.filter fun c => c.country = some "Germany"
  let germanInSpanish := spanishComps.foldl
    (fun acc comp => acc ++
      ((fixturesInComp db comp.id today).filter fun fx =>
        let home := clubNameOfTeam db fx.home_team_id
        let away := clubNameOfTeam db fx.away_team_id
        (isGermanName home || isGermanName away) &&
        !(isSpanishName home && isSpanishName away)))
    []
  let spanishInGerman := germanComps.foldl
    (fun acc comp => acc ++
      ((fixturesInComp db comp.id today).filter fun fx =>
        let home := clubNameOfTeam db fx.home_team_id
        let away := clubNameOfTeam db fx.away_team_id
        (isSpanishName home || isSpanishName away) &&
        !(isGermanName home && isGermanName away)))
    []
  let upcoming := db.fixtures.filter (fun fx => upcomingOk fx today)
  let duplicates := upcoming.filter fun fx =>
    let key := groupKey db fx
    let group := upcoming.filter fun g => groupKey db g = key
    if 2 ≤ group.length then
      let home := key.1
      let away := key.2.1
      let correct? : Option String :=
        if isGermanName home && isGermanName away then some "Germany"
        else if isSpanishName home && isSpanishName away then some "Spain"
        else none
      match correct? with
      | some correct => compCountryOf db fx ≠ some correct
      | none => false
    else false
  let aggressive := spanishComps.foldl
    (fun acc comp => acc ++
      ((fixturesInComp db comp.id today).filter fun fx =>
        isGermanName (clubNameOfTeam db fx.home_team_id) &&
        isGermanName (clubNameOfTeam db fx.away_team_id)))
    []
  ((germanInSpanish ++ spanishInGerman ++ duplicates ++ aggressive).map
    (fun fx => fx.id)).dedup

/-- clear_incorrect_fixtures: delete the flagged fixtures; session.delete
on a Fixture nulls the fixture_id of its MatchResult (the relationship has
no delete cascade), so MatchResult rows survive as orphans. -/
def clear_incorrect_fixtures (db : RStore) (today : Day) : RStore :=
  let dels := deletedIds db today
  { db with
    fixtures := db.fixtures.filter fun fx => !dels.contains fx.id,
    match_results := db.match_results.map fun r =>
      match r.fixture_id with
      | some fid =>
        if dels.contains fid then { r with fixture_id := none } else r
      | none => r }

/-- The German club names of scripts/fix_duplicate_fixtures.py. -/
def GERMAN_TEAMS : List String :=
  ["Hamburger SV II", "Weiche Flensburg 08", "Alemannia Aachen",
   "1. FC Saarbrücken", "Werder Bremen II", "SSV Jeddeloh II",
   "1. FC Nürnberg II", "TSV Schwaben Augsburg", "Blau-Weiß Lohne",
   "TSV Havelse", "FC Ingolstadt 04", "SV Wehen Wiesbaden",
   "Kickers Emden", "Eintracht Norderstedt"]

/-- find_duplicates of scripts/fix_duplicate_fixtures.py: over German
Regionalliga fixtures whose home club is in GERMAN_TEAMS, group by
(home, away, date) and keep only the member whose competition has the
lowest priority index (its position among the Regionalliga query
results); the others are deleted.  Returns the deleted ids. -/
def findDuplicatesDeleted (db : RStore) : List Nat :=
  let regionalligas := db.competitions.filter fun c =>
    containsSub c.name "Regionalliga" && c.country = some "Germany"
  if regionalligas.isEmpty then []
  else
    let priority : List (Nat × Nat) :=
      (regionalligas.enum.map fun p => (p.2.id, p.1))
    let compIds := regionalligas.map fun c => c.id
    let fixtures := db.fixtures.filter fun fx =>
      (match fx.season_id with
       | some sid =>
         match db.seasons.find? (fun s => s.id = sid) with
         | some s =>
           match s.competition_id with
           | some cid => compIds.contains cid
           | none => false
         | none => false
       | none => false) &&
      GERMAN_TEAMS.contains (clubNameOfTeam db fx.home_team_id)
    let prioOf : RFixture → Nat := fun fx =>
      match fx.season_id with
      | some sid =>
        match db.seasons.find? (fun s => s.id = sid) with
        | some s =>
          match s.competition_id with
          | some cid => pyGetD priority cid 999
          | none => 999
        | none => 999
      | none => 999
    -- sorted(group, key=priority) is stable, and sorted_group[0] is kept:
    -- the first group member carrying the minimal priority survives,
    -- every other member is deleted
    (fixtures.filter fun fx =>
      let key := groupKey db fx
      let group := fixtures.filter fun g => groupKey db g = key
      2 ≤ group.length &&
      (match group.find? (fun g => group.all fun h => prioOf g ≤ prioOf h) with
       | some kept => fx.id ≠ kept.id
       | none => false)).map
      (fun fx => fx.id)

end Repair

/-! ## Helper lemmas -/

theorem pyGet_pySet_same [DecidableEq α] (m : List (α × β)) (k : α) (v : β) :
    pyGet (pySet m k v) k = some v := by
  induction m with
  | nil => simp [pySet, pyGet]
  | cons h t ih =>
    by_cases hk : h.1 = k
    · simp [pySet, hk, pyGet]
    · simp [pySet, hk, pyGet, ih]

theorem pyGet_pySet_other [DecidableEq α] (m : List (α × β)) (k k' : α)
    (v : β) (hne : k ≠ k') : pyGet (pySet m k v) k' = pyGet m k' := by
  induction m with
  | nil => simp [pySet, pyGet, hne]
  | cons h t ih =>
    by_cases hk : h.1 = k
    · subst hk
      simp [pySet, pyGet, hne]
    · simp [pySet, hk, pyGet, ih]

theorem splitOnChar_ne_nil (sep : Char) (cs : List Char) :
    splitOnChar sep cs ≠ [] := by
  induction cs with
  | nil => simp [splitOnChar]
  | cons c t ih =>
    simp only [splitOnChar]
    by_cases h : c = sep
    · simp [h]
    · simp only [h, if_false]
      cases hr : splitOnChar sep t with
      | nil => simp
      | cons a b => simp

theorem splitOnChar_of_not_mem (sep : Char) (cs : List Char)
    (h : sep ∉ cs) : splitOnChar sep cs = [cs] := by
  induction cs with
  | nil => simp [splitOnChar]
  | cons c t ih =>
    simp only [List.mem_cons, not_or] at h
    have hcs : ¬ c = sep := fun hh => h.1 hh.symm
    simp only [splitOnChar, if_neg hcs]
    rw [ih h.2]

theorem mem_of_splitOnChar_two (sep : Char) (cs : List Char) (a b : List Char)
    (h : splitOnChar sep cs = [a, b]) : sep ∈ cs := by
  by_contra hmem
  rw [splitOnChar_of_not_mem sep cs hmem] at h
  simp at h

/-- A nonempty run of non-whitespace characters splits as one piece. -/
theorem pySplitWsL_all_solid (cs : List Char) (hne : cs ≠ [])
    (h : ∀ c ∈ cs, isPyWs c = false) : pySplitWsL cs = [cs] := by
  induction cs with
  | nil => exact absurd rfl hne
  | cons c t ih =>
    have hc : isPyWs c = false := h c (List.mem_cons_self c t)
    cases t with
    | nil => simp [pySplitWsL, hc]
    | cons c2 t2 =>
      have ht : pySplitWsL (c2 :: t2) = [c2 :: t2] := by
        apply ih (by simp)
        intro x hx
        exact h x (List.mem_cons_of_mem c hx)
      have hc2 : isPyWs c2 = false := h c2 (by simp)
      simp [pySplitWsL, hc, hc2, ht]

/-- A leading whitespace character is dropped by split(). -/
theorem pySplitWsL_ws_cons (c : Char) (b : List Char) (hc : isPyWs c = true) :
    pySplitWsL (c :: b) = pySplitWsL b := by
  cases b with
  | nil => simp [pySplitWsL, hc]
  | cons x t => simp [pySplitWsL, hc]

/-- A solid word, one space, then the rest: the word is the first piece. -/
theorem pySplitWsL_word_space (a b : List Char) (hne : a ≠ [])
    (h : ∀ c ∈ a, isPyWs c = false) :
    pySplitWsL (a ++ ' ' :: b) = a :: pySplitWsL b := by
  induction a with
  | nil => exact absurd rfl hne
  | cons c t ih =>
    have hc : isPyWs c = false := h c (List.mem_cons_self c t)
    cases t with
    | nil =>
      have hsp : isPyWs ' ' = true := by decide
      simp [pySplitWsL, hc, hsp, pySplitWsL_ws_cons]
    | cons c2 t2 =>
      have ht : pySplitWsL (c2 :: (t2 ++ ' ' :: b)) = (c2 :: t2) :: pySplitWsL b := by
        have := ih (by simp) (fun x hx => h x (List.mem_cons_of_mem c hx))
        simpa using this
      have hc2 : isPyWs c2 = false := h c2 (by simp)
      simp [pySplitWsL, hc, hc2, ht]

theorem pyIntS_ne_empty (s : String) (v : Int) (h : pyIntS s = some v) :
    s ≠ "" := by
  intro he
  subst he
  simp [pyIntS, pyInt, pyStripL, allDigits] at h

theorem seasonRelative_eval (md : List Char) (ys : String) (cy : Nat)
    (mn : Nat) (dv Y : Int)
    (h1 : FixtureParsers.monthDayOfTok md = some (mn, dv))
    (h2 : pyIntS ys = some Y) :
    FixtureParsers.seasonRelative md (some ys) cy =
      some (fmtYmd (if 7 ≤ mn then Y else Y + 1) mn dv) := by
  have hys : ys ≠ "" := pyIntS_ne_empty ys Y h2
  unfold FixtureParsers.seasonRelative
  rw [h1]
  simp [truthyStr, bne_iff_ne, hys, h2]

theorem monthDayOfTok_contains (md : List Char) (r : Nat × Int)
    (h : FixtureParsers.monthDayOfTok md = some r) :
    md.contains '/' = true := by
  unfold FixtureParsers.monthDayOfTok at h
  rcases hsp : splitOnChar '/' md with _ | ⟨a, _ | ⟨b, _ | _⟩⟩ <;>
    rw [hsp] at h <;> simp_all
  have := mem_of_splitOnChar_two '/' md a b hsp
  simpa [List.contains] using this

theorem monthDayOfTok_ne_nil (md : List Char) (r : Nat × Int)
    (h : FixtureParsers.monthDayOfTok md = some r) : md ≠ [] := by
  intro he
  subst he
  simp [FixtureParsers.monthDayOfTok, splitOnChar] at h

/-- C4: for every day-and-month date string of the form
"<weekday>? <Mon>/<DD>" with a season-year hint Y, normalize_date of
scripts/parsers/fixture_parser.py returns the ISO date whose year is Y
when the month is July or later and Y+1 when it is before July; in
particular normalize_date "Aug/11" with season year "2023" gives
"2023-08-11" and normalize_date "Feb/14" gives "2024-02-14". -/
theorem C4_normalize_date_season_rule :
    (∀ (wd : String) (md : List Char) (ys : String) (cy : Nat)
       (mn : Nat) (dv Y : Int),
       FixtureParsers.monthDayOfTok md = some (mn, dv) →
       pyIntS ys = some Y →
       (∀ c ∈ md, isPyWs c = false) →
       wd.data ≠ [] →
       (∀ c ∈ wd.data, isPyWs c = false) →
       FixtureParsers.normalize_date (wd ++ " " ++ String.mk md)
           (some ys) cy =
         some (fmtYmd (if 7 ≤ mn then Y else Y + 1) mn dv) ∧
       FixtureParsers.normalize_date (String.mk md) (some ys) cy =
         some (fmtYmd (if 7 ≤ mn then Y else Y + 1) mn dv)) ∧
    FixtureParsers.normalize_date "Aug/11" (some "2023") 2026 =
      some "2023-08-11" ∧
    FixtureParsers.normalize_date "Feb/14" (some "2023") 2026 =
      some "2024-02-14" := by
  refine ⟨?_, by decide, by decide⟩
  intro wd md ys cy mn dv Y h1 h2 hmd hwdne hwd
  have hmdne : md ≠ [] := monthDayOfTok_ne_nil md _ h1
  have hcont : md.contains '/' = true := monthDayOfTok_contains md _ h1
  have hsr := seasonRelative_eval md ys cy mn dv Y h1 h2
  constructor
  · have hdata : (wd ++ " " ++ String.mk md).data = wd.data ++ ' ' :: md := by
      simp [String.data_append]
    have hne : (wd ++ " " ++ String.mk md) ≠ "" := by
      intro hh
      have := congrArg String.data hh
      rw [hdata] at this
      simp at this
    have hsplit :
        pySplitWsL (wd ++ " " ++ String.mk md).data = [wd.data, md] := by
      rw [hdata, pySplitWsL_word_space wd.data md hwdne hwd,
        pySplitWsL_all_solid md hmdne hmd]
    unfold FixtureParsers.normalize_date
    rw [if_neg hne]
    simp only [hsplit]
    rw [if_pos hcont, hsr]
  · have hne : String.mk md ≠ "" := by
      intro hh
      apply hmdne
      have := congrArg String.data hh
      simpa using this
    have hsplit : pySplitWsL (String.mk md).data = [md] := by
      have : (String.mk md).data = md := rfl
      rw [this, pySplitWsL_all_solid md hmdne hmd]
    unfold FixtureParsers.normalize_date
    rw [if_neg hne]
    simp only [hsplit]
    rw [if_pos hcont, hsr]

/-- Witness for C4: the quantified part applied at "Fri Aug/11" with
season year "2023". -/
theorem C4_normalize_date_season_rule_witness :
    FixtureParsers.normalize_date ("Fri" ++ " " ++ String.mk "Aug/11".data)
        (some "2023") 2026 =
      some (fmtYmd (if 7 ≤ 8 then (2023 : Int) else 2023 + 1) 8 11) :=
  (C4_normalize_date_season_rule.1 "Fri" "Aug/11".data "2023" 2026 8 11 2023
    (by decide) (by decide) (by decide) (by decide) (by decide)).1

theorem contains_eq_false_of_not_mem (cs : List Char) (c : Char)
    (h : c ∉ cs) : cs.contains c = false := by
  simpa [List.contains] using h

/-- C8 counterexample: the claim fails on the code in two places.  The
normalize_date of scripts/parsers/fixture_parser.py does not handle the
DD.MM.YYYY grammar at all (it returns None on "14.02.2023"), and the
normalize_date of scripts/enhanced_ingestion.py accepts strings outside
all three grammars, because its ISO regex is only anchored at the start:
"2023-12-345" (a three-digit day) is returned as "2023-12-345" instead of
null. -/
theorem C8_date_normalizer_counterexample :
    FixtureParsers.normalize_date "14.02.2023" (some "2023") 2026 = none ∧
    Enhanced.normalize_date "2023-12-345" none 2026 = some "2023-12-345" := by
  constructor
  · decide
  · decide

/-- C8 (amended): the enhanced-ingestion normalize_date handles all three
grammars — season-relative "<weekday>? <Mon>/<DD>" (year Y from July on,
Y+1 before), DD.MM.YYYY and ISO dates re-emitted zero-padded — and
returns null (never raising) on everything its regexes reject; the
fixture_parser normalize_date handles only the season-relative and ISO
grammars, returning null on DD.MM.YYYY and on other slash-free,
dash-free strings. -/
theorem C8_date_normalizer_grammars :
    (∀ (cs : List Char) (ys : String) (cy : Nat) (mn d : Nat) (Y : Int),
       Enhanced.monSlashDay cs = some (mn, d) →
       pyIntS ys = some Y →
       cs ≠ [] →
       Enhanced.normalize_date (String.mk cs) (some ys) cy =
         some (fmtYmd (if 7 ≤ mn then Y else Y + 1) mn (d : Int))) ∧
    (∀ (cs dS mS yS : List Char) (d m y : Int) (sy : Option String)
       (cy : Nat),
       Enhanced.monSlashDay cs = none →
       Enhanced.isoRegexOk cs = false →
       Enhanced.ddmmRegexOk cs = true →
       splitOnChar '.' cs = [dS, mS, yS] →
       pyInt dS = some d → pyInt mS = some m → pyInt yS = some y →
       cs ≠ [] →
       Enhanced.normalize_date (String.mk cs) sy cy =
         some (pyFmt0 4 y ++ "-" ++ pyFmt0 2 m ++ "-" ++ pyFmt0 2 d)) ∧
    (∀ (cs yS mS dS : List Char) (y m d : Int) (sy : Option String)
       (cy : Nat),
       Enhanced.monSlashDay cs = none →
       Enhanced.isoRegexOk cs = true →
       splitOnChar '-' cs = [yS, mS, dS] →
       pyInt yS = some y → pyInt mS = some m → pyInt dS = some d →
       cs ≠ [] →
       Enhanced.normalize_date (String.mk cs) sy cy =
         some (pyFmt0 4 y ++ "-" ++ pyFmt0 2 m ++ "-" ++ pyFmt0 2 d)) ∧
    (∀ (cs : List Char) (sy : Option String) (cy : Nat),
       cs ≠ [] →
       (∀ c ∈ cs, isPyWs c = false) →
       '/' ∉ cs → '-' ∉ cs →
       FixtureParsers.normalize_date (String.mk cs) sy cy = none) ∧
    (∀ (cs : List Char) (dd : Day) (sy : Option String) (cy : Nat),
       (∀ c ∈ cs, isPyWs c = false) →
       '/' ∉ cs →
       strptimeYmd cs = some dd →
       FixtureParsers.normalize_date (String.mk cs) sy cy =
         some (String.mk cs)) ∧
    Enhanced.normalize_date "14.02.2023" none 2026 = some "2023-02-14" ∧
    Enhanced.normalize_date "Fri Aug/11" (some "2023") 2026 =
      some "2023-08-11" ∧
    Enhanced.normalize_date "2023-8-11" none 2026 = some "2023-08-11" ∧
    Enhanced.normalize_date "garbage" none 2026 = none ∧
    FixtureParsers.normalize_date "garbage" none 2026 = none := by
  refine ⟨?_, ?_, ?_, ?_, ?_, by decide, by decide, by decide, by decide,
    by decide⟩
  · intro cs ys cy mn d Y h1 h2 hne
    have hnemk : String.mk cs ≠ "" := by
      intro hh
      apply hne
      simpa using congrArg String.data hh
    have hys : ys ≠ "" := pyIntS_ne_empty ys Y h2
    unfold Enhanced.normalize_date
    rw [if_neg hnemk]
    have hdata : (String.mk cs).data = cs := rfl
    simp [hdata, h1, truthyStr, bne_iff_ne, hys, h2]
  · intro cs dS mS yS d m y sy cy h1 hiso hddmm hsp hd hm hy hne
    have hnemk : String.mk cs ≠ "" := by
      intro hh
      apply hne
      simpa using congrArg String.data hh
    unfold Enhanced.normalize_date
    rw [if_neg hnemk]
    have hdata : (String.mk cs).data = cs := rfl
    simp only [hdata, h1, hiso, hddmm, Bool.false_eq_true, if_false, if_true]
    unfold Enhanced.ddmmBranch
    rw [hsp]
    simp [hd, hm, hy]
  · intro cs yS mS dS y m d sy cy h1 hiso hsp hy hm hd hne
    have hnemk : String.mk cs ≠ "" := by
      intro hh
      apply hne
      simpa using congrArg String.data hh
    unfold Enhanced.normalize_date
    rw [if_neg hnemk]
    have hdata : (String.mk cs).data = cs := rfl
    simp only [hdata, h1, hiso, if_true]
    unfold Enhanced.isoBranch
    rw [hsp]
    simp [hy, hm, hd]
  · intro cs sy cy hne hsolid hslash hdash
    have hnemk : String.mk cs ≠ "" := by
      intro hh
      apply hne
      simpa using congrArg String.data hh
    have hsplit : pySplitWsL (String.mk cs).data = [cs] := by
      have hdata : (String.mk cs).data = cs := rfl
      rw [hdata, pySplitWsL_all_solid cs hne hsolid]
    have hc : cs.contains '/' = false := contains_eq_false_of_not_mem cs _ hslash
    have hymd : strptimeYmdS (String.mk cs) = none := by
      unfold strptimeYmdS strptimeYmd
      have hdata : (String.mk cs).data = cs := rfl
      rw [hdata, splitOnChar_of_not_mem '-' cs hdash]
    unfold FixtureParsers.normalize_date
    rw [if_neg hnemk]
    simp only [hsplit, hc, Bool.false_eq_true, if_false, hymd]
    simp
  · intro cs dd sy cy hsolid hslash hymd
    have hne : cs ≠ [] := by
      intro he
      subst he
      simp [strptimeYmd, splitOnChar] at hymd
    have hnemk : String.mk cs ≠ "" := by
      intro hh
      apply hne
      simpa using congrArg String.data hh
    have hsplit : pySplitWsL (String.mk cs).data = [cs] := by
      have hdata : (String.mk cs).data = cs := rfl
      rw [hdata, pySplitWsL_all_solid cs hne hsolid]
    have hc : cs.contains '/' = false := contains_eq_false_of_not_mem cs _ hslash
    have hymdS : strptimeYmdS (String.mk cs) = some dd := hymd
    unfold FixtureParsers.normalize_date
    rw [if_neg hnemk]
    simp only [hsplit, hc, Bool.false_eq_true, if_false, hymdS]
    simp

/-- Witness for C8: the DD.MM.YYYY conjunct of the amended theorem applied
at "14.02.2023". -/
theorem C8_date_normalizer_grammars_witness :
    Enhanced.normalize_date (String.mk "14.02.2023".data) none 2026 =
      some (pyFmt0 4 2023 ++ "-" ++ pyFmt0 2 2 ++ "-" ++ pyFmt0 2 14) :=
  C8_date_normalizer_grammars.2.1 "14.02.2023".data "14".data "02".data
    "2023".data 14 2 2023 none 2026 (by decide) (by decide) (by decide)
    (by decide) (by decide) (by decide) (by decide) (by decide)

/-! ## C5: the validation gate -/

/-- A completed fixture record with the maximal accepted score of 20. -/
def recScore20 : FixtureRec :=
  { match_date := some "2023-08-11", home_team := "Arsenal FC",
    away_team := "Chelsea FC", stage := none, venue := none,
    is_completed := true, home_score := some 20, away_score := some 0 }

/-- The same record with home_score 21, the data-corruption sentinel. -/
def recScore21 : FixtureRec :=
  { recScore20 with home_score := some 21 }

/-- An upcoming (not completed) record with no score. -/
def recUpcoming : FixtureRec :=
  { match_date := some "2030-08-11", home_team := "Arsenal FC",
    away_team := "Chelsea FC", stage := none, venue := none,
    is_completed := false, home_score := none, away_score := none }

/-- A store already holding clubs and teams for both names. -/
def storeTwoTeams : Store :=
  { clubs := [{ id := 1, name := "Arsenal FC" }, { id := 2, name := "Chelsea FC" }],
    teams := [{ id := 3, club_id := some 1, team_type := "club" },
              { id := 4, club_id := some 2, team_type := "club" }],
    nextId := 5 }

/-- C5: validate_fixture of scripts/parsers/fixture_parser.py rejects a
record lacking a home or away team name or carrying a nonempty date that
strptime("%Y-%m-%d") rejects; for a completed record it rejects a missing
score and any per-side score outside 0..20 (21 is rejected, 20 accepted);
and an incomplete record with no score and an acceptable date passes the
gate and, on insert, is stored without a MatchResult. -/
theorem C5_validation_gate :
    (∀ f : FixtureRec, f.home_team = "" ∨ f.away_team = "" →
       FixtureParsers.validate_fixture f = false) ∧
    (∀ (f : FixtureRec) (d : String), f.match_date = some d → d ≠ "" →
       strptimeYmdS d = none →
       FixtureParsers.validate_fixture f = false) ∧
    (∀ f : FixtureRec, f.is_completed = true →
       f.home_score = none ∨ f.away_score = none →
       FixtureParsers.validate_fixture f = false) ∧
    (∀ (f : FixtureRec) (hs as_ : Int), f.is_completed = true →
       f.home_score = some hs → f.away_score = some as_ →
       hs < 0 ∨ 20 < hs ∨ as_ < 0 ∨ 20 < as_ →
       FixtureParsers.validate_fixture f = false) ∧
    (∀ f : FixtureRec, f.home_team ≠ "" → f.away_team ≠ "" →
       (f.match_date = none ∨ f.match_date = some "" ∨
        ∃ d dd, f.match_date = some d ∧ strptimeYmdS d = some dd) →
       f.is_completed = false →
       FixtureParsers.validate_fixture f = true) ∧
    FixtureParsers.validate_fixture recScore21 = false ∧
    FixtureParsers.validate_fixture recScore20 = true ∧
    FixtureParsers.validate_fixture recUpcoming = true ∧
    ((FixtureParsers.bulk_upsert_fixtures storeTwoTeams [recUpcoming]
        none).1.fixtures.map fun fx => (fx.result, fx.is_completed)) =
      [(none, false)] := by
  refine ⟨?_, ?_, ?_, ?_, ?_, by decide, by decide, by decide, by decide⟩
  · intro f h
    unfold FixtureParsers.validate_fixture
    rcases h with h | h <;> simp [h]
  · intro f d hd hdne hparse
    unfold FixtureParsers.validate_fixture
    by_cases hteam : f.home_team = "" ∨ f.away_team = ""
    · rcases hteam with h | h <;> simp [h]
    · push_neg at hteam
      simp only [hteam.1, hteam.2]
      simp [hd, truthyStr, bne_iff_ne, hdne, hparse]
  · intro f hcomp h
    unfold FixtureParsers.validate_fixture
    by_cases hteam : f.home_team = "" ∨ f.away_team = ""
    · rcases hteam with h1 | h1 <;> simp [h1]
    · push_neg at hteam
      by_cases hdate : truthyStr f.match_date ∧
          (strptimeYmdS (f.match_date.getD "")).isNone
      · simp [hteam.1, hteam.2, hdate.1, hdate.2]
      · rcases h with h1 | h1 <;> simp_all [hcomp]
  · intro f hs as_ hcomp hhs has hbad
    unfold FixtureParsers.validate_fixture
    by_cases hteam : f.home_team = "" ∨ f.away_team = ""
    · rcases hteam with h1 | h1 <;> simp [h1]
    · push_neg at hteam
      by_cases hdate : truthyStr f.match_date ∧
          (strptimeYmdS (f.match_date.getD "")).isNone
      · simp [hteam.1, hteam.2, hdate.1, hdate.2]
      · simp only [hteam.1, hteam.2, hcomp, hhs, has]
        rcases hbad with h1 | h1 | h1 | h1 <;> simp_all
  · intro f hh ha hdate hcomp
    unfold FixtureParsers.validate_fixture
    simp only [hh, ha, hcomp]
    rcases hdate with h1 | h1 | ⟨d, dd, h1, h2⟩ <;>
      simp_all [truthyStr]

/-- Witness for C5: the acceptance conjunct applied at recUpcoming. -/
theorem C5_validation_gate_witness :
    FixtureParsers.validate_fixture recUpcoming = true :=
  C5_validation_gate.2.2.2.2.1 recUpcoming (by decide) (by decide)
    (Or.inr (Or.inr ⟨"2030-08-11", ⟨2030, 8, 11⟩, by decide, by decide⟩))
    (by decide)

/-! ## C6: score pattern versus completion -/

/-- C6 counterexample: in parse_fixture_txt of
scripts/parsers/fixture_parser.py, a match line carrying a numeric score
under a future date header yields a record with is_completed = false
(completion follows the date-versus-today comparison, not the score), and
a "?-?" line yields no record at all rather than a not-completed record. -/
theorem C6_score_completion_counterexample :
    ((FixtureParsers.parse_fixture_txt ["[Aug/11]", "Arsenal 2-1 Chelsea"]
        [] (some "2999") 2026 ⟨2026, 10, 12⟩).map fun r =>
        (r.is_completed, r.home_score, r.away_score)) =
      [(false, some 2, some 1)] ∧
    FixtureParsers.parse_fixture_txt ["[Aug/11]", "Arsenal ?-? Chelsea"]
        [] (some "2023") 2026 ⟨2026, 10, 12⟩ = [] := by
  constructor
  · decide
  · decide

/-- C6 (amended): in parse_fixture_txt the score pattern governs the
record's scores but not its completion: a scored match line yields a
record carrying both scores whose is_completed flag is the parse-time
date inference (true unless the normalized date parses and lies strictly
after today); an unscored "Team A v Team B" line yields a not-completed
record with no scores; and a line with a "?-?" score matches neither
grammar and yields no record. -/
theorem C6_score_vs_completion :
    (∀ (tm : List (String × String)) (sy : Option String) (cy : Nat)
       (today : Day) (st : FixtureParsers.TxtState) (line : String)
       (t : Option String) (home : String) (hs as_ : Nat) (away : String),
       pyStrip line ≠ "" →
       pyStartsWith (pyStrip line) "=" = false →
       pyStartsWith (pyStrip line) "#" = false →
       pyStartsWith (pyLower (pyStrip line)) "matchday" = false →
       pyStartsWith (pyLower (pyStrip line)) "round" = false →
       dateHeaderMatch (pyStrip line).data = none →
       mainLineMatch (pyStrip line).data = some (t, home, hs, as_, away) →
       FixtureParsers.txtLineStep tm sy cy today st line =
         { st with fixtures := st.fixtures ++
             [{ match_date :=
                  FixtureParsers.currentNormalized st.current_date sy cy,
                home_team := mapGetD tm (pyStrip home),
                away_team := mapGetD tm (pyStrip away),
                stage := st.current_round, venue := none,
                is_completed := FixtureParsers.inferCompleted
                  (FixtureParsers.currentNormalized st.current_date sy cy)
                  today,
                home_score := some (hs : Int),
                away_score := some (as_ : Int) }] }) ∧
    (∀ (tm : List (String × String)) (sy : Option String) (cy : Nat)
       (today : Day) (st : FixtureParsers.TxtState) (line : String)
       (home away : String),
       pyStrip line ≠ "" →
       pyStartsWith (pyStrip line) "=" = false →
       pyStartsWith (pyStrip line) "#" = false →
       pyStartsWith (pyLower (pyStrip line)) "matchday" = false →
       pyStartsWith (pyLower (pyStrip line)) "round" = false →
       dateHeaderMatch (pyStrip line).data = none →
       mainLineMatch (pyStrip line).data = none →
       altLineMatch (pyStrip line).data = some (home, away) →
       FixtureParsers.txtLineStep tm sy cy today st line =
         { st with fixtures := st.fixtures ++
             [{ match_date :=
                  FixtureParsers.currentNormalized st.current_date sy cy,
                home_team := mapGetD tm (pyStrip home),
                away_team := mapGetD tm (pyStrip away),
                stage := st.current_round, venue := none,
                is_completed := false,
                home_score := none, away_score := none }] }) ∧
    ((FixtureParsers.parse_fixture_txt ["[Aug/11]", "Arsenal 2-1 Chelsea"]
        [] (some "2023") 2026 ⟨2026, 10, 12⟩).map fun r =>
        (r.is_completed, r.home_score, r.away_score)) =
      [(true, some 2, some 1)] ∧
    ((FixtureParsers.parse_fixture_txt ["[Aug/11]", "Arsenal v Chelsea"]
        [] (some "2023") 2026 ⟨2026, 10, 12⟩).map fun r =>
        (r.is_completed, r.home_score, r.away_score)) =
      [(false, none, none)] := by
  refine ⟨?_, ?_, by decide, by decide⟩
  · intro tm sy cy today st line t home hs as_ away hne h1 h2 h3 h4 h5 hm
    unfold FixtureParsers.txtLineStep
    simp only [hne, h1, h2, h3, h4, h5, hm, Bool.or_self, Bool.or_false,
      Bool.false_eq_true, if_false, if_neg, ite_false]
    simp [hne]
  · intro tm sy cy today st line home away hne h1 h2 h3 h4 h5 hm ha
    unfold FixtureParsers.txtLineStep
    simp only [hne, h1, h2, h3, h4, h5, hm, ha, Bool.or_self, Bool.or_false,
      Bool.false_eq_true, if_false, if_neg, ite_false]
    simp [hne]

/-- Witness for C6: the scored-line conjunct applied at a concrete line
with a future header date already current in the state. -/
theorem C6_score_vs_completion_witness :
    FixtureParsers.txtLineStep [] (some "2999") 2026 ⟨2026, 10, 12⟩
        ⟨[], some "Aug/11", none⟩ "Arsenal 2-1 Chelsea" =
      { fixtures :=
          [{ match_date :=
               FixtureParsers.currentNormalized (some "Aug/11")
                 (some "2999") 2026,
             home_team := mapGetD [] (pyStrip "Arsenal"),
             away_team := mapGetD [] (pyStrip "Chelsea"),
             stage := none, venue := none,
             is_completed := FixtureParsers.inferCompleted
               (FixtureParsers.currentNormalized (some "Aug/11")
                 (some "2999") 2026) ⟨2026, 10, 12⟩,
             home_score := some 2, away_score := some 1 }],
        current_date := some "Aug/11", current_round := none } :=
  C6_score_vs_completion.1 [] (some "2999") 2026 ⟨2026, 10, 12⟩
    ⟨[], some "Aug/11", none⟩ "Arsenal 2-1 Chelsea" none "Arsenal" 2 1
    "Chelsea" (by decide) (by decide) (by decide) (by decide) (by decide)
    (by decide) (by decide)

/-! ## C9: malformed lines and parser totality -/

/-- A line of a fixture text file that matches none of the grammars:
not blank, not a comment/header, not a matchday/round or date header,
and matched by neither line regex. -/
theorem txtLineStep_malformed (tm : List (String × String))
    (sy : Option String) (cy : Nat) (today : Day)
    (st : FixtureParsers.TxtState) (line : String)
    (hne : pyStrip line ≠ "")
    (h1 : pyStartsWith (pyStrip line) "=" = false)
    (h2 : pyStartsWith (pyStrip line) "#" = false)
    (h3 : pyStartsWith (pyLower (pyStrip line)) "matchday" = false)
    (h4 : pyStartsWith (pyLower (pyStrip line)) "round" = false)
    (h5 : dateHeaderMatch (pyStrip line).data = none)
    (h6 : mainLineMatch (pyStrip line).data = none)
    (h7 : altLineMatch (pyStrip line).data = none) :
    FixtureParsers.txtLineStep tm sy cy today st line = st := by
  unfold FixtureParsers.txtLineStep
  simp only [hne, h1, h2, h3, h4, h5, h6, h7, Bool.or_self, Bool.or_false,
    Bool.false_eq_true, if_false, ite_false]
  simp [hne]

/-- C9 counterexample: parse_club_txt of scripts/parsers/club_parser.py
does not skip a malformed line — a stray "|" continuation line with no
preceding header becomes a club record named "|stray". -/
theorem C9_malformed_counterexample :
    (ClubParsers.parse_club_txt ["|stray"] none).map (fun c => c.name) =
      ["|stray"] := by
  decide

/-- C9 (amended): the parsers are total (never raise) and no line aborts
the rest of the file; parse_fixture_txt silently skips any line matching
none of its grammars, leaving the remaining lines' output untouched;
parse_fixture_csv keeps exactly one record per row, turning an
unparsable score into a score-less not-completed record instead of
skipping the row; and parse_club_txt skips blank and comment lines but
treats every other line — malformed or not — as a club header producing
a record. -/
theorem C9_parser_error_handling :
    (∀ (tm : List (String × String)) (sy : Option String) (cy : Nat)
       (today : Day) (pre post : List String) (bad : String),
       pyStrip bad ≠ "" →
       pyStartsWith (pyStrip bad) "=" = false →
       pyStartsWith (pyStrip bad) "#" = false →
       pyStartsWith (pyLower (pyStrip bad)) "matchday" = false →
       pyStartsWith (pyLower (pyStrip bad)) "round" = false →
       dateHeaderMatch (pyStrip bad).data = none →
       mainLineMatch (pyStrip bad).data = none →
       altLineMatch (pyStrip bad).data = none →
       FixtureParsers.parse_fixture_txt (pre ++ bad :: post) tm sy cy today =
         FixtureParsers.parse_fixture_txt (pre ++ post) tm sy cy today) ∧
    (∀ (rows : List FixtureParsers.CsvRow) (tm : List (String × String)),
       (FixtureParsers.parse_fixture_csv rows tm).length = rows.length) ∧
    ((FixtureParsers.parse_fixture_csv
        [{ home_team := "A", away_team := "B", score := some "abc" }]
        []).map fun r => (r.home_score, r.away_score, r.is_completed)) =
      [(none, none, false)] ∧
    (∀ (l : String) (rest : List String) (country : Option String),
       (pyStrip l = "" ∨ pyStartsWith (pyStrip l) "=" = true ∨
        pyStartsWith (pyStrip l) "#" = true) →
       ClubParsers.parse_club_txt (l :: rest) country =
         ClubParsers.parse_club_txt rest country) ∧
    FixtureParsers.parse_fixture_txt
        ["[Aug/11]", "@@##garbage@@", "Arsenal 2-1 Chelsea"] []
        (some "2023") 2026 ⟨2026, 10, 12⟩ =
      FixtureParsers.parse_fixture_txt ["[Aug/11]", "Arsenal 2-1 Chelsea"]
        [] (some "2023") 2026 ⟨2026, 10, 12⟩ := by
  refine ⟨?_, ?_, by decide, ?_, by decide⟩
  · intro tm sy cy today pre post bad hne h1 h2 h3 h4 h5 h6 h7
    unfold FixtureParsers.parse_fixture_txt
    congr 1
    rw [List.foldl_append, List.foldl_append, List.foldl_cons,
      txtLineStep_malformed tm sy cy today _ bad hne h1 h2 h3 h4 h5 h6 h7]
  · intro rows tm
    unfold FixtureParsers.parse_fixture_csv
    simp
  · intro l rest country h
    rcases h with h | h | h <;>
      simp [ClubParsers.parse_club_txt, ClubParsers.parse_club_txt_go, h]

/-- Witness for C9: the skip conjunct applied at the malformed line
"Arsenal ?-? Chelsea" between two well-formed lines. -/
theorem C9_parser_error_handling_witness :
    FixtureParsers.parse_fixture_txt
        (["[Aug/11]"] ++ "Arsenal ?-? Chelsea" :: ["Spurs 1-0 Fulham"]) []
        (some "2023") 2026 ⟨2026, 10, 12⟩ =
      FixtureParsers.parse_fixture_txt (["[Aug/11]"] ++ ["Spurs 1-0 Fulham"])
        [] (some "2023") 2026 ⟨2026, 10, 12⟩ :=
  C9_parser_error_handling.1 [] (some "2023") 2026 ⟨2026, 10, 12⟩
    ["[Aug/11]"] ["Spurs 1-0 Fulham"] "Arsenal ?-? Chelsea" (by decide)
    (by decide) (by decide) (by decide) (by decide) (by decide) (by decide)
    (by decide)

/-! ## C2 and C7: the fixture dedup key -/

/-- A validated completed record for the Arsenal/Chelsea pairing. -/
def recCompleted : FixtureRec :=
  { match_date := some "2023-08-11", home_team := "Arsenal FC",
    away_team := "Chelsea FC", stage := none, venue := none,
    is_completed := true, home_score := some 2, away_score := some 1 }

/-- storeTwoTeams with the logical fixture already stored: one row whose
dedup triple is (2023-08-11, 3, 4), the Date column holding a
datetime.date. -/
def storeC2 : Store :=
  { storeTwoTeams with
    fixtures := [{ id := 5, match_date := some ⟨2023, 8, 11⟩,
                   home_team_id := some 3, away_team_id := some 4 }],
    nextId := 6 }

/-- C2 (code-bug evaluation): re-ingesting a record whose dedup key
(match_date, home_team_id, away_team_id) equals the key of the stored
Fixture does NOT update that row: the existing-fixtures dict is keyed by
the datetime.date read back from the Date column while the lookup key
carries the record's str, and in Python a str never equals a date, so the
record takes the insert path and the store ends with two rows for the
same logical key (added = 1, updated = 0).  The fetch itself does find
the stored row — only the cross-typed lookup misses. -/
theorem C2_dedup_update_in_place_fails :
    ((FixtureParsers.bulk_upsert_fixtures storeC2 [recCompleted]
        none).1.fixtures.map fun fx =>
        (fx.match_date, fx.home_team_id, fx.away_team_id)) =
      [(some ⟨2023, 8, 11⟩, some 3, some 4),
       (some ⟨2023, 8, 11⟩, some 3, some 4)] ∧
    (FixtureParsers.bulk_upsert_fixtures storeC2 [recCompleted] none).2 =
      (1, 0) ∧
    pyGet (FixtureParsers.existingFetch storeC2 [("2023-08-11", 3, 4)])
        (recFxKey (some "2023-08-11") 3 4) = none ∧
    pyGet (FixtureParsers.existingFetch storeC2 [("2023-08-11", 3, 4)])
        (PyKeyPart.d ⟨2023, 8, 11⟩, PyKeyPart.i 3, PyKeyPart.i 4) =
      some 5 := by
  refine ⟨by decide, by decide, by decide, by decide⟩

/-- C7 (code-bug evaluation): two records of one batch carrying the same
dedup key, both new to the store, are each appended to to_insert — the
loop never registers the first insert in the existing map — so the batch
commits two Fixture rows with the same (match_date, home_team_id,
away_team_id) key (added = 2, updated = 0), violating the
one-row-per-key invariant within a single run. -/
theorem C7_batch_duplicate_key_inserts_twice :
    ((FixtureParsers.bulk_upsert_fixtures storeTwoTeams
        [recCompleted, recCompleted] none).1.fixtures.map fun fx =>
        (fx.match_date, fx.home_team_id, fx.away_team_id)) =
      [(some ⟨2023, 8, 11⟩, some 3, some 4),
       (some ⟨2023, 8, 11⟩, some 3, some 4)] ∧
    (FixtureParsers.bulk_upsert_fixtures storeTwoTeams
        [recCompleted, recCompleted] none).2 = (2, 0) := by
  refine ⟨by decide, by decide⟩

/-! ## C1: the enhanced sync driver's unbound upsert names -/

/-- The dispatch predicate of sync_repo in enhanced_ingestion.py: true
exactly when the file is routed to one of the five parser branches. -/
def Enhanced.routed (f : FileEntry) : Bool :=
  (pyEndsWith f.name ".json" && isClubFile f) ||
  (pyEndsWith f.name ".txt" && isClubFile f) ||
  pyEndsWith f.name ".csv" ||
  isFixtureTxt f ||
  (pyEndsWith f.name ".txt" && inSquadsDir f)

/-- get_or_create_season touches only competitions, seasons and the id
counter. -/
theorem get_or_create_season_frame (db : Store) (sy rn : Option String) :
    (SyncFx.get_or_create_season db sy rn).1.clubs = db.clubs ∧
    (SyncFx.get_or_create_season db sy rn).1.teams = db.teams ∧
    (SyncFx.get_or_create_season db sy rn).1.fixtures = db.fixtures ∧
    (SyncFx.get_or_create_season db sy rn).1.players = db.players ∧
    (SyncFx.get_or_create_season db sy rn).1.audits = db.audits := by
  unfold SyncFx.get_or_create_season
  dsimp only
  split
  · exact ⟨rfl, rfl, rfl, rfl, rfl⟩
  · split <;> split <;> simp_all <;> split <;> simp_all

/-- A fixture text file of the eng-england repo for the 2023-24 season. -/
def fileC1 : FileEntry :=
  { rootParts := ["eng-england", "2023-24"],
    name := "1-premierleague.txt",
    relpath := "2023-24/1-premierleague.txt",
    sha1 := "h1",
    content := .text ["[Fri Aug/11]", "Arsenal FC 2-1 Chelsea FC"] }

/-- C1 counterexample: processing a fixture text file in the enhanced
driver persists a Competition row and a Season row (committed by
get_or_create_season before the failing bulk_upsert call), so "no records
are persisted" does not hold as stated. -/
theorem C1_counterexample_season_persisted :
    ((Enhanced.processFile "eng-england" [] false 2026 ⟨2026, 10, 12⟩
        (({} : Store), ([] : StateMap)) fileC1).1.competitions.map
        fun c => c.name) = ["eng-england"] ∧
    ((Enhanced.processFile "eng-england" [] false 2026 ⟨2026, 10, 12⟩
        (({} : Store), ([] : StateMap)) fileC1).1.seasons.map
        fun s => (s.year_start, s.year_end)) = [(2023, 2024)] := by
  refine ⟨by decide, by decide⟩

/-- C1 (amended): sync_repo of enhanced_ingestion.py calls
bulk_upsert_clubs, bulk_upsert_fixtures and bulk_upsert_players without
importing or defining them, so every routed, non-skipped file fails with
NameError, which the per-file handler catches: no club, team, fixture,
player or audit record is persisted and the state-map entry is not
advanced — though for CSV and fixture-text files get_or_create_season has
already committed Competition and Season rows before the failing call. -/
theorem C1_unbound_upserts_abort_routed_files :
    ("bulk_upsert_clubs" ∉ Enhanced.moduleScope ∧
     "bulk_upsert_clubs" ∉ Enhanced.branchLocalImports) ∧
    ("bulk_upsert_fixtures" ∉ Enhanced.moduleScope ∧
     "bulk_upsert_fixtures" ∉ Enhanced.branchLocalImports) ∧
    ("bulk_upsert_players" ∉ Enhanced.moduleScope ∧
     "bulk_upsert_players" ∉ Enhanced.branchLocalImports) ∧
    (∀ (repoName : String) (tm : List (String × String)) (force : Bool)
       (cy : Nat) (today : Day) (db : Store) (state : StateMap)
       (f : FileEntry),
       Enhanced.routed f = true →
       (force = true ∨ pyGet state (stateKey repoName f) ≠ some f.sha1) →
       (Enhanced.processFile repoName tm force cy today (db, state) f).1.clubs
           = db.clubs ∧
       (Enhanced.processFile repoName tm force cy today (db, state) f).1.teams
           = db.teams ∧
       (Enhanced.processFile repoName tm force cy today
           (db, state) f).1.fixtures = db.fixtures ∧
       (Enhanced.processFile repoName tm force cy today
           (db, state) f).1.players = db.players ∧
       (Enhanced.processFile repoName tm force cy today
           (db, state) f).1.audits = db.audits ∧
       (Enhanced.processFile repoName tm force cy today (db, state) f).2
           = state) := by
  refine ⟨⟨by decide, by decide⟩, ⟨by decide, by decide⟩,
    ⟨by decide, by decide⟩, ?_⟩
  intro repoName tm force cy today db state f hrouted hskip
  have hcond : (!force &&
      (pyGet state (stateKey repoName f) = some f.sha1 : Bool)) = false := by
    rcases hskip with h | h
    · simp [h]
    · simp [h]
  unfold Enhanced.processFile
  simp only [hcond, Bool.false_eq_true, if_false]
  by_cases hb1 : (pyEndsWith f.name ".json" && isClubFile f) = true
  · simp [hb1]
  · by_cases hb2 : (pyEndsWith f.name ".txt" && isClubFile f) = true
    · simp [hb1, hb2]
    · by_cases hb3 : pyEndsWith f.name ".csv" = true
      · simp only [hb1, hb2, hb3, Bool.false_eq_true, if_false, if_true]
        exact ⟨(get_or_create_season_frame db _ _).1,
          (get_or_create_season_frame db _ _).2.1,
          (get_or_create_season_frame db _ _).2.2.1,
          (get_or_create_season_frame db _ _).2.2.2.1,
          (get_or_create_season_frame db _ _).2.2.2.2, trivial⟩
      · by_cases hb4 : isFixtureTxt f = true
        · simp only [hb1, hb2, hb3, hb4, Bool.false_eq_true, if_false,
            if_true]
          exact ⟨(get_or_create_season_frame db _ _).1,
            (get_or_create_season_frame db _ _).2.1,
            (get_or_create_season_frame db _ _).2.2.1,
            (get_or_create_season_frame db _ _).2.2.2.1,
            (get_or_create_season_frame db _ _).2.2.2.2, trivial⟩
        · by_cases hb5 : (pyEndsWith f.name ".txt" && inSquadsDir f) = true
          · simp [hb1, hb2, hb3, hb4, hb5]
          · exfalso
            unfold Enhanced.routed at hrouted
            simp [hb1, hb2, hb3, hb4, hb5] at hrouted

/-! ## C3: incremental sync idempotence (sync_fixtures.py) -/

/-- A hash-matching file is skipped before any parsing, upsert or audit:
the per-file step is the identity. -/
theorem processFile_skip (repoName : String) (tm : List (String × String))
    (cy : Nat) (today : Day) (now : String) (db : Store) (state : StateMap)
    (f : FileEntry)
    (h : pyGet state (stateKey repoName f) = some f.sha1) :
    SyncFx.processFile repoName tm false cy today now (db, state) f =
      (db, state) := by
  unfold SyncFx.processFile
  simp [h]

/-- The per-file step never touches state-map keys other than its own. -/
theorem processFile_other_keys (repoName : String)
    (tm : List (String × String)) (cy : Nat) (today : Day) (now : String)
    (db : Store) (state : StateMap) (f : FileEntry) (k : String)
    (hk : k ≠ stateKey repoName f) :
    pyGet (SyncFx.processFile repoName tm false cy today now
        (db, state) f).2 k = pyGet state k := by
  unfold SyncFx.processFile
  dsimp only
  by_cases hskip : pyGet state (stateKey repoName f) = some f.sha1
  · simp [hskip]
  · rw [if_neg (by simp [hskip])]
    split_ifs
    · exact pyGet_pySet_other state _ k f.sha1 (Ne.symm hk)
    · exact pyGet_pySet_other state _ k f.sha1 (Ne.symm hk)
    · rcases hp : SyncFx.parse_openfootball_csv f.content.asCsv tm with _ | v
      · rfl
      · exact pyGet_pySet_other state _ k f.sha1 (Ne.symm hk)
    · exact pyGet_pySet_other state _ k f.sha1 (Ne.symm hk)
    · exact pyGet_pySet_other state _ k f.sha1 (Ne.symm hk)
    · exact pyGet_pySet_other state _ k f.sha1 (Ne.symm hk)

/-- After a step on a clean file, the file's own key maps to its hash. -/
theorem processFile_own_key (repoName : String)
    (tm : List (String × String)) (cy : Nat) (today : Day) (now : String)
    (db : Store) (state : StateMap) (f : FileEntry)
    (hclean : (SyncFx.parse_openfootball_csv f.content.asCsv tm).isSome) :
    pyGet (SyncFx.processFile repoName tm false cy today now
        (db, state) f).2 (stateKey repoName f) = some f.sha1 := by
  unfold SyncFx.processFile
  dsimp only
  by_cases hskip : pyGet state (stateKey repoName f) = some f.sha1
  · simp [hskip]
  · rw [if_neg (by simp [hskip])]
    split_ifs
    · exact pyGet_pySet_same state _ f.sha1
    · exact pyGet_pySet_same state _ f.sha1
    · rcases hp : SyncFx.parse_openfootball_csv f.content.asCsv tm with _ | v
      · rw [hp] at hclean
        simp at hclean
      · exact pyGet_pySet_same state _ f.sha1
    · exact pyGet_pySet_same state _ f.sha1
    · exact pyGet_pySet_same state _ f.sha1
    · exact pyGet_pySet_same state _ f.sha1

/-- A fold of per-file steps cannot touch a state key belonging to none
of the files. -/
theorem foldFiles_other_keys (repoName : String)
    (tm : List (String × String)) (cy : Nat) (today : Day) (now : String)
    (files : List FileEntry) (db : Store) (state : StateMap) (k : String)
    (hk : ∀ f ∈ files, k ≠ stateKey repoName f) :
    pyGet (files.foldl
        (SyncFx.processFile repoName tm false cy today now)
        (db, state)).2 k = pyGet state k := by
  induction files generalizing db state with
  | nil => rfl
  | cons f rest ih =>
    rw [List.foldl_cons]
    have step := processFile_other_keys repoName tm cy today now db state f k
      (hk f (List.mem_cons_self f rest))
    rcases hpf : SyncFx.processFile repoName tm false cy today now
        (db, state) f with ⟨db1, s1⟩
    rw [hpf] at step
    rw [ih db1 s1 (fun g hg => hk g (List.mem_cons_of_mem f hg)), step]

/-- After one run over clean files with pairwise distinct state keys,
every file's key maps to its hash. -/
theorem foldFiles_keys_set (repoName : String)
    (tm : List (String × String)) (cy : Nat) (today : Day) (now : String)
    (files : List FileEntry) (db : Store) (state : StateMap)
    (hnodup : (files.map (stateKey repoName)).Nodup)
    (hclean : ∀ f ∈ files,
      (SyncFx.parse_openfootball_csv f.content.asCsv tm).isSome = true) :
    ∀ g ∈ files,
      pyGet (files.foldl
          (SyncFx.processFile repoName tm false cy today now)
          (db, state)).2 (stateKey repoName g) = some g.sha1 := by
  induction files generalizing db state with
  | nil => intro g hg; simp at hg
  | cons f rest ih =>
    intro g hg
    rw [List.foldl_cons]
    rcases hpf : SyncFx.processFile repoName tm false cy today now
        (db, state) f with ⟨db1, s1⟩
    rcases List.mem_cons.mp hg with he | hmem
    · subst he
      have hset : pyGet s1 (stateKey repoName g) = some g.sha1 := by
        have h0 := processFile_own_key repoName tm cy today now db state g
          (hclean g (List.mem_cons_self g rest))
        rw [hpf] at h0
        exact h0
      have hkeys : ∀ f2 ∈ rest, stateKey repoName g ≠ stateKey repoName f2 := by
        intro f2 hf2 heq
        have hnm := (List.nodup_cons.mp hnodup).1
        exact hnm (heq ▸ List.mem_map_of_mem (stateKey repoName) hf2)
      rw [foldFiles_other_keys repoName tm cy today now rest db1 s1 _ hkeys,
        hset]
    · exact ih db1 s1 (List.nodup_cons.mp hnodup).2
        (fun f2 hf2 => hclean f2 (List.mem_cons_of_mem f hf2)) g hmem

/-- A fold over files whose keys already map to their hashes is the
identity. -/
theorem foldFiles_all_skip (repoName : String)
    (tm : List (String × String)) (cy : Nat) (today : Day) (now : String)
    (files : List FileEntry) (db : Store) (state : StateMap)
    (h : ∀ f ∈ files, pyGet state (stateKey repoName f) = some f.sha1) :
    files.foldl (SyncFx.processFile repoName tm false cy today now)
        (db, state) = (db, state) := by
  induction files with
  | nil => rfl
  | cons f rest ih =>
    rw [List.foldl_cons,
      processFile_skip repoName tm cy today now db state f
        (h f (List.mem_cons_self f rest))]
    exact ih (fun g hg => h g (List.mem_cons_of_mem f hg))

/-- C3: in sync_repo of scripts/sync_fixtures.py, a file whose stored
state-map hash equals its current SHA-1 is skipped before any parsing,
upsert or audit write (the per-file step is the identity); consequently,
running the sync twice in a row with no source-file changes and without
the force flag leaves the store — Fixture, Club and Team rows and audit
rows alike — and the state map exactly as after the first run. -/
theorem C3_hash_skip_idempotence :
    (∀ (repoName : String) (tm : List (String × String)) (cy : Nat)
       (today : Day) (now : String) (db : Store) (state : StateMap)
       (f : FileEntry),
       pyGet state (stateKey repoName f) = some f.sha1 →
       SyncFx.processFile repoName tm false cy today now (db, state) f =
         (db, state)) ∧
    (∀ (repoName : String) (tm : List (String × String)) (cy : Nat)
       (today : Day) (now : String) (db : Store) (state : StateMap)
       (files : List FileEntry),
       repoName ≠ "eng-england" →
       (files.map (stateKey repoName)).Nodup →
       (∀ f ∈ files,
         (SyncFx.parse_openfootball_csv f.content.asCsv tm).isSome = true) →
       SyncFx.runRepo repoName tm false cy today now
           (SyncFx.runRepo repoName tm false cy today now db state files).1
           (SyncFx.runRepo repoName tm false cy today now db state files).2
           files =
         SyncFx.runRepo repoName tm false cy today now db state files) := by
  constructor
  · exact fun repoName tm cy today now db state f h =>
      processFile_skip repoName tm cy today now db state f h
  · intro repoName tm cy today now db state files hrepo hnodup hclean
    cases files with
    | nil => rfl
    | cons f0 rest =>
      have hcond : (decide (repoName = "eng-england") &&
          (f0.rootParts.any fun p => containsSub p "2024-25")) = false := by
        simp [hrepo]
      have hrw : ∀ (d : Store) (s : StateMap),
          SyncFx.runRepo repoName tm false cy today now d s (f0 :: rest) =
            (f0 :: rest).foldl
              (SyncFx.processFile repoName tm false cy today now) (d, s) := by
        intro d s
        simp only [SyncFx.runRepo]
        rw [hcond]
        simp
      rw [hrw, hrw]
      have hkeys := foldFiles_keys_set repoName tm cy today now (f0 :: rest)
        db state hnodup hclean
      rcases hfold : (f0 :: rest).foldl
          (SyncFx.processFile repoName tm false cy today now)
          (db, state) with ⟨db1, s1⟩
      rw [hfold] at hkeys
      exact foldFiles_all_skip repoName tm cy today now (f0 :: rest) db1 s1
        hkeys

/-- Witness for C3: the run-twice conjunct applied to a one-file repo. -/
theorem C3_hash_skip_idempotence_witness :
    SyncFx.runRepo "test-league" [] false 2026 ⟨2026, 10, 12⟩ "t0"
        (SyncFx.runRepo "test-league" [] false 2026 ⟨2026, 10, 12⟩ "t0"
          {} [] [fileC1]).1
        (SyncFx.runRepo "test-league" [] false 2026 ⟨2026, 10, 12⟩ "t0"
          {} [] [fileC1]).2 [fileC1] =
      SyncFx.runRepo "test-league" [] false 2026 ⟨2026, 10, 12⟩ "t0"
        {} [] [fileC1] :=
  C3_hash_skip_idempotence.2 "test-league" [] 2026 ⟨2026, 10, 12⟩ "t0"
    {} [] [fileC1] (by decide) (by decide) (by decide)

/-! ## C10: the duplicate-repair pass -/

/-- A store exercising the repair pass: German-named clubs (Bayern
München, Borussia Dortmund) with an upcoming duplicate cluster filed
under Spain (fixture 100, carrying MatchResult 500) and Germany
(fixture 101), the same cluster in the past (fixtures 102/103), and an
upcoming England/France cluster of non-German non-Spanish names
(fixtures 104/105). -/
def c10Today : Day := ⟨2026, 10, 12⟩

def c10Store : Repair.RStore :=
  { clubs := [{ id := 1, name := "Bayern München" },
              { id := 2, name := "Borussia Dortmund" },
              { id := 3, name := "Arsenal" },
              { id := 4, name := "Chelsea" }],
    teams := [{ id := 1, club_id := some 1, team_type := "club" },
              { id := 2, club_id := some 2, team_type := "club" },
              { id := 3, club_id := some 3, team_type := "club" },
              { id := 4, club_id := some 4, team_type := "club" }],
    competitions :=
      [{ id := 10, name := "La Liga", country := some "Spain" },
       { id := 11, name := "Bundesliga", country := some "Germany" },
       { id := 12, name := "Premier League", country := some "England" },
       { id := 13, name := "Ligue 1", country := some "France" }],
    seasons :=
      [{ id := 20, competition_id := some 10, year_start := 2026,
         year_end := 2027, season_name := "2026-27" },
       { id := 21, competition_id := some 11, year_start := 2026,
         year_end := 2027, season_name := "2026-27" },
       { id := 22, competition_id := some 12, year_start := 2026,
         year_end := 2027, season_name := "2026-27" },
       { id := 23, competition_id := some 13, year_start := 2026,
         year_end := 2027, season_name := "2026-27" }],
    fixtures :=
      [{ id := 100, season_id := some 20, match_date := some ⟨2026, 11, 1⟩,
         home_team_id := some 1, away_team_id := some 2 },
       { id := 101, season_id := some 21, match_date := some ⟨2026, 11, 1⟩,
         home_team_id := some 1, away_team_id := some 2 },
       { id := 102, season_id := some 20, match_date := some ⟨2026, 1, 1⟩,
         home_team_id := some 1, away_team_id := some 2 },
       { id := 103, season_id := some 21, match_date := some ⟨2026, 1, 1⟩,
         home_team_id := some 1, away_team_id := some 2 },
       { id := 104, season_id := some 22, match_date := some ⟨2026, 11, 5⟩,
         home_team_id := some 3, away_team_id := some 4 },
       { id := 105, season_id := some 23, match_date := some ⟨2026, 11, 5⟩,
         home_team_id := some 3, away_team_id := some 4 }],
    match_results := [{ id := 500, fixture_id := some 100,
                        home_score := some 2, away_score := some 1 }] }

/-- Two copies of the same German Regionalliga fixture (home club in the
GERMAN_TEAMS list) filed under two Regionalliga competitions. -/
def c10RegStore : Repair.RStore :=
  { clubs := [{ id := 5, name := "TSV Havelse" },
              { id := 6, name := "Kickers Emden" }],
    teams := [{ id := 5, club_id := some 5, team_type := "club" },
              { id := 6, club_id := some 6, team_type := "club" }],
    competitions :=
      [{ id := 30, name := "Regionalliga Nord", country := some "Germany" },
       { id := 31, name := "Regionalliga Nordost",
         country := some "Germany" }],
    seasons :=
      [{ id := 40, competition_id := some 30, year_start := 2025,
         year_end := 2026, season_name := "2025-26" },
       { id := 41, competition_id := some 31, year_start := 2025,
         year_end := 2026, season_name := "2025-26" }],
    fixtures :=
      [{ id := 200, season_id := some 41, match_date := some ⟨2025, 9, 14⟩,
         home_team_id := some 5, away_team_id := some 6 },
       { id := 201, season_id := some 40, match_date := some ⟨2025, 9, 14⟩,
         home_team_id := some 5, away_team_id := some 6 }] }

/-- Membership in a foldl that only appends comes from the initial list
or from one of the appended pieces. -/
theorem mem_foldl_append {α β : Type} (f : β → List α) (l : List β)
    (init : List α) (x : α)
    (h : x ∈ l.foldl (fun acc c => acc ++ f c) init) :
    x ∈ init ∨ ∃ c ∈ l, x ∈ f c := by
  induction l generalizing init with
  | nil => exact Or.inl h
  | cons c t ih =>
    rw [List.foldl_cons] at h
    rcases ih (init ++ f c) h with hin | ⟨c2, hc2, hx⟩
    · rcases List.mem_append.mp hin with h1 | h2
      · exact Or.inl h1
      · exact Or.inr ⟨c, List.mem_cons_self c t, h2⟩
    · exact Or.inr ⟨c2, List.mem_cons_of_mem c hc2, hx⟩

/-- Members of a per-competition upcoming-fixtures query are stored
fixtures dated today or later. -/
theorem mem_fixturesInComp (db : Repair.RStore) (cid : Nat) (today : Day)
    (fx : Repair.RFixture) (h : fx ∈ Repair.fixturesInComp db cid today) :
    fx ∈ db.fixtures ∧ Repair.upcomingOk fx today = true := by
  have h2 := List.mem_filter.mp h
  have h3 := h2.2
  simp only [Bool.and_eq_true] at h3
  exact ⟨h2.1, h3.2⟩

/-- Every id flagged for deletion by clear_incorrect_fixtures belongs to
a stored fixture dated today or later. -/
theorem deletedIds_upcoming (db : Repair.RStore) (today : Day) (i : Nat)
    (h : i ∈ Repair.deletedIds db today) :
    ∃ fx ∈ db.fixtures, fx.id = i ∧ Repair.upcomingOk fx today = true := by
  simp only [Repair.deletedIds] at h
  rw [List.mem_dedup] at h
  rcases List.mem_map.mp h with ⟨fx, hfx, hid⟩
  have hboth : fx ∈ db.fixtures ∧ Repair.upcomingOk fx today = true := by
    rcases List.mem_append.mp hfx with h3 | h4
    · rcases List.mem_append.mp h3 with h5 | h6
      · rcases List.mem_append.mp h5 with h7 | h8
        · rcases mem_foldl_append _ _ _ _ h7 with h0 | ⟨comp, _, hin⟩
          · simp at h0
          · exact mem_fixturesInComp db comp.id today fx
              (List.mem_filter.mp hin).1
        · rcases mem_foldl_append _ _ _ _ h8 with h0 | ⟨comp, _, hin⟩
          · simp at h0
          · exact mem_fixturesInComp db comp.id today fx
              (List.mem_filter.mp hin).1
      · have h9 := (List.mem_filter.mp h6).1
        have h10 := List.mem_filter.mp h9
        exact ⟨h10.1, h10.2⟩
    · rcases mem_foldl_append _ _ _ _ h4 with h0 | ⟨comp, _, hin⟩
      · simp at h0
      · exact mem_fixturesInComp db comp.id today fx
          (List.mem_filter.mp hin).1
  exact ⟨fx, hboth.1, hid, hboth.2⟩

/-- C10 counterexample: on c10Store with today = 2026-10-12, the repair
pass deletes only the Spain-filed upcoming copy (fixture 100) — the past
duplicate cluster 102/103 is never grouped (fixtures before today are
excluded, so the past Spain-filed copy survives), the ambiguous
England/France cluster 104/105 is left whole (no priority-index
fallback exists in this pass), and the deleted fixture's MatchResult row
is not deleted but kept with its fixture_id nulled. -/
theorem C10_duplicate_repair_counterexample :
    ((Repair.clear_incorrect_fixtures c10Store c10Today).fixtures.map
        fun fx => fx.id) = [101, 102, 103, 104, 105] ∧
    (Repair.clear_incorrect_fixtures c10Store c10Today).match_results =
      [{ id := 500, fixture_id := none, home_score := some 2,
         away_score := some 1 }] :=
  ⟨by decide, by decide⟩

/-- C10 (amended): clear_incorrect_fixtures groups only fixtures dated
today or later by (home club name, away club name, match_date)
irrespective of competition; in a group of two or more it deletes the
members filed under a country other than the one both team names match
(keeping the Germany-filed copy of a both-German-named upcoming pair
filed under Spain and Germany) and deletes nothing of a group whose
names do not both match a single country's keyword list — there is no
priority fallback in this pass; session.delete removes the Fixture rows
but leaves their MatchResult rows in place with fixture_id nulled.  The
priority-index rule lives in the separate fix_duplicate_fixtures.py,
restricted to German Regionalliga fixtures whose home club is in its
GERMAN_TEAMS list, where the group member of lowest priority index is
kept and the rest deleted. -/
theorem C10_duplicate_repair :
    (∀ (db : Repair.RStore) (today : Day),
       (Repair.clear_incorrect_fixtures db today).match_results.length =
         db.match_results.length) ∧
    (∀ (db : Repair.RStore) (today : Day) (i : Nat),
       i ∈ Repair.deletedIds db today →
       ∃ fx ∈ db.fixtures, fx.id = i ∧
         Repair.upcomingOk fx today = true) ∧
    (100 ∈ Repair.deletedIds c10Store c10Today ∧
     101 ∉ Repair.deletedIds c10Store c10Today) ∧
    Repair.findDuplicatesDeleted c10RegStore = [200] := by
  refine ⟨?_, ?_, ⟨by decide, by decide⟩, by decide⟩
  · intro db today
    simp [Repair.clear_incorrect_fixtures]
  · intro db today i h
    exact deletedIds_upcoming db today i h

/-- Witness for C10: the orphan-preservation and upcoming-only conjuncts
instantiated at c10Store and the flagged id 100. -/
theorem C10_duplicate_repair_witness :
    (Repair.clear_incorrect_fixtures c10Store c10Today).match_results.length
        = c10Store.match_results.length ∧
    (∃ fx ∈ c10Store.fixtures, fx.id = 100 ∧
       Repair.upcomingOk fx c10Today = true) :=
  ⟨C10_duplicate_repair.1 c10Store c10Today,
   C10_duplicate_repair.2.1 c10Store c10Today 100 (by decide)⟩

/-- Witness for C1: the routed-file conjunct applied at fileC1 over the
empty store. -/
theorem C1_unbound_upserts_abort_routed_files_witness :
    (Enhanced.processFile "eng-england" [] false 2026 ⟨2026, 10, 12⟩
        (({} : Store), ([] : StateMap)) fileC1).1.fixtures =
      ({} : Store).fixtures ∧
    (Enhanced.processFile "eng-england" [] false 2026 ⟨2026, 10, 12⟩
        (({} : Store), ([] : StateMap)) fileC1).2 = ([] : StateMap) :=
  ⟨(C1_unbound_upserts_abort_routed_files.2.2.2 "eng-england" [] false 2026
      ⟨2026, 10, 12⟩ {} [] fileC1 (by decide)
      (Or.inr (by decide))).2.2.1,
   (C1_unbound_upserts_abort_routed_files.2.2.2 "eng-england" [] false 2026
      ⟨2026, 10, 12⟩ {} [] fileC1 (by decide)
      (Or.inr (by decide))).2.2.2.2.2⟩

end MW
